import Mathlib

/-!
Verification of the glean boot-time network configurator (`glean/cmd.py`,
`glean/utils.py`): a shallow embedding of the topology resolver, the four
dialect renderers, the persistence routine and the device probe, together
with theorems settling the specification claims.

Python dictionaries are modelled as insertion-ordered association lists;
optional dictionary keys become `Option` fields; code that can raise runs
in `Except PyErr`.
-/

set_option maxRecDepth 4000

namespace Glean

/-- Python exception kinds observable in the modelled code paths. -/
inductive PyErr where
  | keyError
  | unboundLocalError
  | attributeError
  | stopIteration
  | valueError
  | syntaxError
  deriving Repr, DecidableEq

/-- Insertion-ordered association list standing for a Python `dict`. -/
abbrev AList (α : Type) : Type := List (String × α)

/-- `d[k]` as an `Option` (Python `dict.get`). -/
def alookup {α : Type} (d : AList α) (k : String) : Option α :=
  match d with
  | [] => none
  | (k', v) :: rest => if k' = k then some v else alookup rest k

/-- `k in d`. -/
def amem {α : Type} (d : AList α) (k : String) : Bool :=
  (alookup d k).isSome

/-- `d[k] = v`: overwrite in place, else append (Python dict insertion order). -/
def aset {α : Type} (d : AList α) (k : String) (v : α) : AList α :=
  match d with
  | [] => [(k, v)]
  | (k', v') :: rest => if k' = k then (k', v) :: rest else (k', v') :: aset rest k v

/-- `d.update(other)`: set every entry of `other` into `d`, in order. -/
def aupdate {α : Type} (d other : AList α) : AList α :=
  other.foldl (fun acc kv => aset acc kv.1 kv.2) d

/-- Indexing `d[k]` that raises `KeyError` when the key is missing. -/
def dindex {α : Type} (d : AList α) (k : String) : Except PyErr α :=
  match alookup d k with
  | some v => .ok v
  | none => .error .keyError

/-- Reading a dict key modelled as an `Option` field; missing key raises. -/
def req {α : Type} (o : Option α) : Except PyErr α :=
  match o with
  | some v => .ok v
  | none => .error .keyError

/-- Python `str` of an optional value: `None` prints as `"None"`. -/
def pyStr (o : Option String) : String :=
  match o with
  | none => "None"
  | some s => s

/-- Lexicographic comparison on code points, as Python compares strings. -/
def charLeAux : List Char → List Char → Bool
  | [], _ => true
  | _ :: _, [] => false
  | a :: as, b :: bs =>
    if a.toNat < b.toNat then true
    else if b.toNat < a.toNat then false
    else charLeAux as bs

/-- `a <= b` on strings (code-point lexicographic, Python semantics). -/
def strLe (a b : String) : Bool := charLeAux a.data b.data

/-- Stable insertion into a sorted list: a later element goes after equals. -/
def insertSorted {α : Type} (le : α → α → Bool) (x : α) : List α → List α
  | [] => [x]
  | y :: ys => if le y x then y :: insertSorted le x ys else x :: y :: ys

/-- Stable sort (Python `sorted`). -/
def sortBy {α : Type} (le : α → α → Bool) (l : List α) : List α :=
  l.foldl (fun acc x => insertSorted le x acc) []

/-- ASCII lowercase of one character (Python `str.lower` on the alphabets
appearing in provider data). -/
def charLower (c : Char) : Char :=
  if 65 ≤ c.toNat && c.toNat ≤ 90 then Char.ofNat (c.toNat + 32) else c

/-- Python `s.lower()`. -/
def pyLower (s : String) : String :=
  ⟨s.data.map charLower⟩

/-- Worker for `pySplit`: split at every non-overlapping occurrence of the
(nonempty) separator, scanning left to right.  `fuel` bounds the recursion
and is always at least the remaining length. -/
def splitChars (sep : List Char) : Nat → List Char → List Char → List (List Char)
  | _, [], cur => [cur]
  | 0, s, cur => [cur ++ s]
  | fuel + 1, c :: rest, cur =>
    if sep.isPrefixOf (c :: rest) then
      cur :: splitChars sep fuel ((c :: rest).drop sep.length) []
    else
      splitChars sep fuel rest (cur ++ [c])

/-- Python `s.split(sep)` / Lean `String.splitOn` for a nonempty separator. -/
def pySplit (s sep : String) : List String :=
  if sep.data = [] then [s]
  else (splitChars sep.data (s.data.length + 1) s.data []).map (fun l => ⟨l⟩)

/-- Worker for `pyReplace`. -/
def replaceChars (pat sub : List Char) : Nat → List Char → List Char
  | _, [] => []
  | 0, s => s
  | fuel + 1, c :: rest =>
    if pat.isPrefixOf (c :: rest) then
      sub ++ replaceChars pat sub fuel ((c :: rest).drop pat.length)
    else
      c :: replaceChars pat sub fuel rest

/-- Python `s.replace(pat, sub)` for a nonempty pattern (all non-overlapping
occurrences, left to right). -/
def pyReplace (s pat sub : String) : String :=
  if pat.data = [] then s
  else ⟨replaceChars pat.data sub.data (s.data.length + 1) s.data⟩

/-- Python `s.startswith(p)`. -/
def pyIsPrefixOf (p s : String) : Bool :=
  p.data.isPrefixOf s.data

/-- Concatenation of a list of strings (`"".join`). -/
def strJoin : List String → String
  | [] => ""
  | a :: l => a ++ strJoin l

/-- Python `pat in s` substring test. -/
def strContains (s pat : String) : Bool :=
  (pySplit s pat).length != 1

/-- Python `sorted(set(l))` for strings. -/
def sortedSet (l : List String) : List String :=
  sortBy strLe l.eraseDups

/-- Decimal digit value. -/
def digitVal (c : Char) : Option Nat :=
  if 48 ≤ c.toNat && c.toNat ≤ 57 then some (c.toNat - 48) else none

/-- Hexadecimal digit value. -/
def hexVal (c : Char) : Option Nat :=
  if 48 ≤ c.toNat && c.toNat ≤ 57 then some (c.toNat - 48)
  else if 97 ≤ c.toNat && c.toNat ≤ 102 then some (c.toNat - 87)
  else if 65 ≤ c.toNat && c.toNat ≤ 70 then some (c.toNat - 55)
  else none

/-- Python `int(s, base)` restricted to plain digit strings. -/
def parseNatBase (base : Nat) (f : Char → Option Nat) (s : String) : Option Nat :=
  if s = "" then none
  else s.data.foldl (fun acc c => acc.bind (fun a => (f c).map (fun d => a * base + d))) (some 0)

/-- `bin(n).count('1')`. -/
def popCount (n : Nat) : Nat := (Nat.toDigits 2 n).count '1'

/-- `utils.ipv4_netmask_length`: sum of set bits of the dotted-quad words;
a non-numeric word raises `ValueError` (uncaught in the source). -/
def ipv4_netmask_length (netmask : String) : Except PyErr Nat := do
  let vals ← (pySplit netmask ".").mapM (fun x =>
    match parseNatBase 10 digitVal x with
    | some v => Except.ok v
    | none => Except.error PyErr.valueError)
  pure (vals.foldl (fun a v => a + popCount v) 0)

/-- The contiguous-prefix table of `utils.ipv6_netmask_length`. -/
def bitCountList : List Nat :=
  [0, 0x8000, 0xc000, 0xe000, 0xf000, 0xf800, 0xfc00, 0xfe00, 0xff00,
   0xff80, 0xffc0, 0xffe0, 0xfff0, 0xfff8, 0xfffc, 0xfffe, 0xffff]

/-- Word loop of `utils.ipv6_netmask_length`: stop at an empty or zero word;
a bad word (parse failure or absent from the table) raises `SyntaxError`. -/
def ipv6CountWords : List String → Except PyErr Nat
  | [] => .ok 0
  | w :: rest =>
    if w = "" then .ok 0
    else
      match parseNatBase 16 hexVal w with
      | none => .error .syntaxError
      | some v =>
        if v = 0 then .ok 0
        else
          match bitCountList.findIdx? (fun x => x == v) with
          | none => .error .syntaxError
          | some i => do
              let c ← ipv6CountWords rest
              pure (i + c)

/-- `utils.ipv6_netmask_length`. -/
def ipv6_netmask_length (netmask : String) : Except PyErr Nat :=
  ipv6CountWords (pySplit netmask ":")

/-- A provider route dictionary; key presence is modelled with `Option`. -/
structure Route where
  network : Option String := none
  netmask : Option String := none
  gateway : Option String := none
  deriving Repr, DecidableEq

/-- A provider link / normalized interface dictionary.  `id` and `type` are
always present on provider records; the remaining keys may be absent. -/
structure Iface where
  id : String
  type : String
  ethernet_mac_address : Option String := none
  vlan_mac_address : Option String := none
  vlan_id : Option Nat := none
  vlan_link : Option String := none
  bond_links : Option (List String) := none
  bond_mode : Option String := none
  bond_miimon : Option Nat := none
  bond_lacp_rate : Option String := none
  bond_xmit_hash_policy : Option String := none
  bond_master : Option String := none
  bond_slaves : Option (List String) := none
  slaves : Option (List String) := none
  mac_address : Option String := none
  raw_macs : Option (List String) := none
  link : Option String := none
  link_mac : Option String := none
  ip_address : Option String := none
  netmask : Option String := none
  routes : Option (List Route) := none
  deriving Repr, DecidableEq

/-- A provider network dictionary. -/
structure NetworkRec where
  id : String
  link : String
  type : String
  ip_address : Option String := none
  netmask : Option String := none
  routes : Option (List Route) := none
  deriving Repr, DecidableEq

/-- The decoded `network_info` payload; a missing top-level key is `none`. -/
structure NetInfo where
  networks : Option (List NetworkRec) := none
  links : Option (List Iface) := none
  deriving Repr, DecidableEq

/-- `link.update(network)`: the network's keys overwrite the link's. -/
def applyNetwork (l : Iface) (n : NetworkRec) : Iface :=
  { l with
    id := n.id
    type := n.type
    link := some n.link
    ip_address := match n.ip_address with | some v => some v | none => l.ip_address
    netmask := match n.netmask with | some v => some v | none => l.netmask
    routes := match n.routes with | some v => some v | none => l.routes }

/-- Partition `net['links']` into the vlan / bond / physical buckets, keyed
by link id, in declaration order. -/
def bucketLinks (links : List Iface) : AList Iface × AList Iface × AList Iface :=
  links.foldl (fun (b : AList Iface × AList Iface × AList Iface) link =>
    let (vlans, bonds, phys) := b
    if link.type = "vlan" then (aset vlans link.id link, bonds, phys)
    else if link.type = "bond" then (vlans, aset bonds link.id link, phys)
    else (vlans, bonds, aset phys link.id link)) ([], [], [])

/-- The MAC list a vlan inherits from a bond parent:
`[phys[phy]['ethernet_mac_address'].lower() for phy in bond_links]`. -/
def vlanBondMacs (phys : AList Iface) : List String → Except PyErr (List String)
  | [] => .ok []
  | phy :: rest => do
      let p ← dindex phys phy
      let m ← req p.ethernet_mac_address
      let ms ← vlanBondMacs phys rest
      pure (pyLower m :: ms)

/-- One iteration of the vlan-resolution loop.  `lastParent` is the value the
local variable `vlan_link` holds from a previous iteration: the `pop` default
`vlan_link['ethernet_mac_address']` is evaluated eagerly, so when the parent
id resolves to neither a physical nor a bond link and no earlier iteration
bound `vlan_link`, an `UnboundLocalError` is raised. -/
def resolveVlanStep (phys bonds : AList Iface) (lastParent : Option Iface) (v : Iface) :
    Except PyErr (Iface × Option Iface) := do
  let vl ← req v.vlan_link
  let (v, lastParent) ←
    (match alookup phys vl with
     | some parent => do
        let m ← req parent.ethernet_mac_address
        Except.ok ({ v with raw_macs := some [pyLower m] }, some parent)
     | none =>
       match alookup bonds vl with
       | some parent => do
          let bls ← req parent.bond_links
          let macs ← vlanBondMacs phys bls
          Except.ok ({ v with raw_macs := some macs }, some parent)
       | none => Except.ok (v, lastParent))
  let dflt ← (match lastParent with
    | none => Except.error PyErr.unboundLocalError
    | some p => req p.ethernet_mac_address)
  let mac := pyLower (v.vlan_mac_address.getD dflt)
  pure ({ v with mac_address := some mac, vlan_mac_address := none }, lastParent)

/-- The vlan-resolution loop over `vlans.values()`, updating each entry. -/
def resolveVlans (phys bonds : AList Iface) (vlans : AList Iface) :
    Except PyErr (AList Iface) := do
  let r ← vlans.foldlM (fun (st : AList Iface × Option Iface) kv => do
      let (acc, lastP) := st
      let (v, lastP) ← resolveVlanStep phys bonds lastP kv.2
      pure (acc ++ [(kv.1, v)], lastP)) (([] : AList Iface), (none : Option Iface))
  pure r.1

/-- The slave walk of the bond-resolution loop: `phys[phy]` raises `KeyError`
on a dangling slave id; resolvable slaves get a `bond_master` back-reference
and contribute their lowercased MAC in `bond_links` order. -/
def bondLinksFold (bid : String) :
    List String → AList Iface × List String → Except PyErr (AList Iface × List String)
  | [], st => .ok st
  | phy :: rest, (phys, macs) => do
      let phy_link ← dindex phys phy
      let phy_link := { phy_link with bond_master := some bid }
      let phys := aset phys phy phy_link
      -- the source's `if phy in phys` is true here: the very lookup succeeded
      let m ← req phy_link.ethernet_mac_address
      bondLinksFold bid rest (phys, macs ++ [pyLower m])

/-- One iteration of the bond-resolution loop (before the manual-interface
registration): computes `raw_macs`, moves `ethernet_mac_address` into
`mac_address`. -/
def resolveBondStep (phys : AList Iface) (b : Iface) :
    Except PyErr (AList Iface × Iface) := do
  let bls ← req b.bond_links
  let (phys, phy_macs) ← bondLinksFold b.id bls (phys, [])
  let em ← req b.ethernet_mac_address
  pure (phys, { b with
    raw_macs := some phy_macs
    mac_address := some (pyLower em)
    ethernet_mac_address := none })

/-- The bond loop: resolve each bond, and register a bond with no attached
network as a standalone `manual` interface. -/
def resolveBonds (netLinkIds : List String) (phys : AList Iface) (bonds : AList Iface)
    (interfaces : AList Iface) :
    Except PyErr (AList Iface × AList Iface × AList Iface) := do
  bonds.foldlM (fun (st : AList Iface × AList Iface × AList Iface) kv => do
      let (phys, bondsAcc, interfaces) := st
      let (phys, b) ← resolveBondStep phys kv.2
      if b.id ∈ netLinkIds then
        pure (phys, bondsAcc ++ [(kv.1, b)], interfaces)
      else
        let b := { b with type := "manual" }
        pure (phys, bondsAcc ++ [(kv.1, b)], aset interfaces b.id b))
    (phys, ([] : AList Iface), interfaces)

/-- The physical-link loop: lowercase the MAC into `mac_address`, and register
a physical link with no attached network as a `manual` interface. -/
def resolvePhys (netLinkIds : List String) (phys : AList Iface) (interfaces : AList Iface) :
    Except PyErr (AList Iface × AList Iface) := do
  phys.foldlM (fun (st : AList Iface × AList Iface) kv => do
      let (physAcc, interfaces) := st
      let p := kv.2
      let em ← req p.ethernet_mac_address
      let p := { p with mac_address := some (pyLower em), ethernet_mac_address := none }
      if p.id ∈ netLinkIds then
        pure (physAcc ++ [(kv.1, p)], interfaces)
      else
        let p := { p with type := "manual" }
        pure (physAcc ++ [(kv.1, p)], aset interfaces p.id p))
    (([] : AList Iface), interfaces)

/-- The network-attachment loop: look the network's link up in the vlan, then
physical, then bond bucket; a network whose link id is unresolvable is
silently skipped; otherwise `link.update(network)` is applied cumulatively to
the bucket entry and a deep copy is indexed under the network id. -/
def attachNetworks (networks : List NetworkRec)
    (vlans phys bonds : AList Iface) (interfaces : AList Iface) : AList Iface :=
  (networks.foldl (fun
      (st : AList Iface × AList Iface × AList Iface × AList Iface) n =>
      let (vlans, phys, bonds, interfaces) := st
      match alookup vlans n.link with
      | some l =>
          let u := applyNetwork l n
          (aset vlans n.link u, phys, bonds, aset interfaces n.id u)
      | none =>
        match alookup phys n.link with
        | some l =>
            let u := applyNetwork l n
            (vlans, aset phys n.link u, bonds, aset interfaces n.id u)
        | none =>
          match alookup bonds n.link with
          | some l =>
              let u := applyNetwork l n
              (vlans, phys, aset bonds n.link u, aset interfaces n.id u)
          | none => (vlans, phys, bonds, interfaces))
    (vlans, phys, bonds, interfaces)).2.2.2

/-- `get_config_drive_interfaces`: provider graph → interface map, or the
exception the source raises. -/
def get_config_drive_interfaces (net : NetInfo) : Except PyErr (AList Iface) := do
  match net.networks, net.links with
  | some networks, some links =>
    let netLinkIds := networks.map (·.link)
    let (vlans, bonds, phys) := bucketLinks links
    let vlans ← resolveVlans phys bonds vlans
    let (phys, bonds, interfaces) ← resolveBonds netLinkIds phys bonds []
    let (phys, interfaces) ← resolvePhys netLinkIds phys interfaces
    pure (attachNetworks networks vlans phys bonds interfaces)
  | _, _ => pure []

/-! ## Debian/ifupdown renderer -/

/-- Rendered file set: absolute path → content, insertion-ordered. -/
abbrev Files : Type := AList String

/-- `slaves_add` template. -/
def slaves_add (a b : String) : String :=
  "    post-up ifenslave " ++ a ++ " " ++ b ++ "\n"

/-- `slaves_del` template. -/
def slaves_del (a b : String) : String :=
  "    pre-down ifenslave -d " ++ a ++ " " ++ b ++ "\n"

/-- Python truthiness of an optional string (`None` and `""` are falsy). -/
def pyTruthy (o : Option String) : Bool :=
  match o with
  | none => false
  | some s => s ≠ ""

/-- The bond option block the Debian branches emit under
`if 'bond_mode' in interface`. -/
def debianBondOpts (sys : AList String) (interface : Iface) (interface_name : String) :
    Except PyErr String := do
  let m ← req interface.mac_address
  let hw := if m ≠ "" then "    hwaddress " ++ m ++ "\n" else ""
  let mode ← req interface.bond_mode
  let rms ← req interface.raw_macs
  let slave_devices ← rms.mapM (fun mac => dindex sys mac)
  let slaves := String.intercalate " " slave_devices
  pure (hw
    ++ "    bond-mode " ++ mode ++ "\n"
    ++ "    bond-miimon " ++ toString (interface.bond_miimon.getD 0) ++ "\n"
    ++ "    bond-lacp-rate " ++ interface.bond_lacp_rate.getD "slow" ++ "\n"
    ++ "    bond-xmit_hash_policy " ++ interface.bond_xmit_hash_policy.getD "layer2" ++ "\n"
    ++ "    bond-slaves none\n"
    ++ slaves_add interface_name slaves
    ++ slaves_del interface_name slaves)

/-- One route of the Debian static stanza: an all-zeros v4 or v6 route becomes
a `gateway` line, anything else paired `up`/`down` route commands. -/
def debianRouteLine (interface_name : String) (iftype : String) (route : Route) :
    Except PyErr String := do
  let net ← req route.network
  let mask ← req route.netmask
  let gw ← req route.gateway
  if (net = "0.0.0.0" && mask = "0.0.0.0") || (net = "::" && mask = "::") then
    pure ("    gateway " ++ gw ++ "\n")
  else
    if iftype = "ipv4" then
      pure ("    up route add -net " ++ net ++ " netmask " ++ mask ++ " gw " ++ gw
          ++ " || true\n"
        ++ "    down route del -net " ++ net ++ " netmask " ++ mask ++ " gw " ++ gw
          ++ " || true\n")
    else do
      let len ← ipv6_netmask_length mask
      pure ("    up ip -6 route add " ++ net ++ "/" ++ toString len ++ " via " ++ gw
          ++ " dev " ++ interface_name ++ " || true\n"
        ++ "    down ip -6 route del " ++ net ++ "/" ++ toString len ++ " via " ++ gw
          ++ " dev " ++ interface_name ++ " || true\n")

/-- Path of a per-device Debian config file. -/
def debPath (name : String) : String :=
  "/etc/network/interfaces.d/" ++ name ++ ".cfg"

/-- Compute the Debian rendered name for a matched interface, together with
the `vlan_raw_device` local.  Returns `none` when the raw-MAC intersection
with the discovered devices is empty (the interface is skipped). -/
def debianMatchName (sys : AList String) (iname : String) (interface : Iface) :
    Except PyErr (Option (Option String × String)) := do
  let m ← req interface.mac_address
  let raw_macs := interface.raw_macs.getD [m]
  if !(raw_macs.any (fun mc => amem sys mc)) then
    pure none
  else if interface.vlan_id.isSome then do
    let vrd ← (if raw_macs.length = 1 then
        Except.ok (alookup sys (raw_macs.headD ""))
      else do
        let vl ← req interface.vlan_link
        Except.ok (some vl))
    pure (some (vrd, pyStr vrd ++ "." ++ toString (interface.vlan_id.getD 0)))
  else if interface.bond_mode.isSome then
    pure (some (none, interface.link.getD iname))
  else do
    let nm ← dindex sys m
    pure (some (none, nm))

/-- The per-type Debian stanza body (without the `auto` header); `none` for a
type the dialect does not know. -/
def debianBody (sys : AList String) (interface : Iface) (vlan_raw_device : Option String)
    (interface_name : String) : Except PyErr (Option String) := do
  if interface.type = "ipv4_dhcp" then do
    let base := "iface " ++ interface_name ++ " inet dhcp\n"
    let extra ← (match vlan_raw_device with
      | some vrd => do
          let m ← req interface.mac_address
          Except.ok ("    vlan-raw-device " ++ vrd ++ "\n"
            ++ "    hw-mac-address " ++ m ++ "\n")
      | none => Except.ok "")
    let bond ← (if interface.bond_mode.isSome then
        debianBondOpts sys interface interface_name
      else pure "")
    pure (some (base ++ extra ++ bond))
  else if interface.type = "manual" then do
    let base := "iface " ++ interface_name ++ " inet manual\n"
    let master := match interface.bond_master with
      | some bm => "    bond-master " ++ bm ++ "\n"
      | none => ""
    let bond ← (if interface.bond_mode.isSome then
        debianBondOpts sys interface interface_name
      else pure "")
    pure (some (base ++ master ++ bond))
  else
    match (if interface.type = "ipv6" then some "inet6"
           else if interface.type = "ipv4" then some "inet" else none) with
    | none => pure none
    | some link_type => do
      let base := "iface " ++ interface_name ++ " " ++ link_type ++ " static\n"
      let vline := if pyTruthy vlan_raw_device then
          "    vlan-raw-device " ++ pyStr vlan_raw_device ++ "\n"
        else ""
      let master := match interface.bond_master with
        | some bm => "    bond-master " ++ bm ++ "\n"
        | none => ""
      let bond ← (if interface.bond_mode.isSome then
          debianBondOpts sys interface interface_name
        else pure "")
      let ip ← req interface.ip_address
      let addr := "    address " ++ ip ++ "\n"
      let nmask ← (if interface.type = "ipv4" then do
          let mk ← req interface.netmask
          Except.ok ("    netmask " ++ mk ++ "\n")
        else do
          let mk ← req interface.netmask
          let len ← ipv6_netmask_length mk
          Except.ok ("    netmask " ++ toString len ++ "\n"))
      let rs ← req interface.routes
      let routeLines ← rs.mapM (debianRouteLine interface_name interface.type)
      pure (some (base ++ vline ++ master ++ bond ++ addr ++ nmask
        ++ strJoin routeLines))

/-- The matched-interface part of one Debian loop iteration: rendered name
and stanza, or `none` for every skip (`continue`) path.  The existing-file
check guards every write. -/
def debianEntry (sys : AList String) (ex : String → Bool) (iname : String)
    (interface : Iface) : Except PyErr (Option (String × String)) := do
  match ← debianMatchName sys iname interface with
  | none => pure none
  | some (vrd, interface_name) =>
    if ex interface_name then pure none
    else
      match ← debianBody sys interface vrd interface_name with
      | none => pure none
      | some result => pure (some (interface_name, result))

/-- One iteration of the Debian declared-interface loop: append to an already
opened per-device file, else create it with its `auto` header. -/
def debianStep (sys : AList String) (ex : String → Bool) (files : Files)
    (entry : String × Iface) : Except PyErr Files := do
  match ← debianEntry sys ex entry.1 entry.2 with
  | none => pure files
  | some (interface_name, result) =>
    match alookup files (debPath interface_name) with
    | some old => pure (aset files (debPath interface_name) (old ++ result))
    | none => pure (aset files (debPath interface_name)
        ("auto " ++ interface_name ++ "\n" ++ result))

/-- `[intf['mac_address'] for intf in interfaces.values()]`. -/
def interMacs (interfaces : AList Iface) : Except PyErr (List String) :=
  interfaces.mapM (fun kv => req kv.2.mac_address)

/-- `[intf.get('link_mac') for intf in interfaces.values() if 'vlan_id' in interface]` —
the filter reads the stale loop variable `interface`, i.e. the last interface
of the declared loop; over an empty dict the condition never evaluates. -/
def linkMacs (interfaces : AList Iface) (lastI : Option Iface) : List (Option String) :=
  match lastI with
  | none => []
  | some li => if li.vlan_id.isSome then interfaces.map (fun kv => kv.2.link_mac) else []

/-- One iteration of the Debian DHCP-fallback loop. -/
def debianFallbackStep (interfaces : AList Iface) (lastI : Option Iface)
    (ex : String → Bool) (files : Files) (entry : String × String) :
    Except PyErr Files := do
  let (mac, iname) := entry
  if ex iname then pure files
  else do
    let inter_macs ← interMacs interfaces
    let link_macs := linkMacs interfaces lastI
    if mac ∈ inter_macs || (some mac) ∈ link_macs then pure files
    else pure (aset files (debPath iname)
      ("auto " ++ iname ++ "\niface " ++ iname ++ " inet dhcp\n"))

/-- The Debian DHCP-fallback loop over the discovered devices. -/
def debianFallback (interfaces : AList Iface) (lastI : Option Iface)
    (ex : String → Bool) (files : Files) (sysSorted : List (String × String)) :
    Except PyErr Files :=
  sysSorted.foldlM (debianFallbackStep interfaces lastI ex) files

/-- `sorted(interfaces.items(), key=lambda x: x[1]['id'])`. -/
def sortedByIdVal (interfaces : AList Iface) : List (String × Iface) :=
  sortBy (fun a b => strLe a.2.id b.2.id) interfaces

/-- `sorted(sys_interfaces.items(), key=lambda x: x[1])`. -/
def sortedByName (sys : AList String) : List (String × String) :=
  sortBy (fun a b => strLe a.2 b.2) sys

/-- `write_debian_interfaces`; `ex name` models the existence of
`/etc/network/interfaces.d/{name}.cfg` on the host. -/
def write_debian_interfaces (interfaces : AList Iface) (sys : AList String)
    (ex : String → Bool) : Except PyErr Files := do
  let files0 : Files := [("/etc/network/interfaces",
    "auto lo\niface lo inet loopback\nsource /etc/network/interfaces.d/*.cfg\n")]
  let sorted := sortedByIdVal interfaces
  let files ← sorted.foldlM (debianStep sys ex) files0
  let lastI := (sorted.getLast?).map (·.2)
  debianFallback interfaces lastI ex files (sortedByName sys)

/-! ## RedHat / SUSE sysconfig renderer -/

/-- `'suse' in distro`. -/
def _is_suse (distro : String) : Bool :=
  strContains distro "suse"

/-- `_network_files(distro)`: the `(ifcfg, route)` path stems. -/
def _network_files (distro : String) : String × String :=
  if _is_suse distro then
    ("/etc/sysconfig/network/ifcfg", "/etc/sysconfig/network/ifroute")
  else
    ("/etc/sysconfig/network-scripts/ifcfg", "/etc/sysconfig/network-scripts/route")

/-- The formatted header of `_network_config(distro)`. -/
def rhHeader (distro bootproto name hwaddr : String) : String :=
  if _is_suse distro then
    "# Automatically generated, do not edit\nBOOTPROTO=" ++ bootproto
      ++ "\nLLADDR=" ++ hwaddr
  else
    "# Automatically generated, do not edit\nDEVICE=" ++ name
      ++ "\nBOOTPROTO=" ++ bootproto ++ "\nHWADDR=" ++ hwaddr

/-- The formatted footer of `_network_config(distro)`. -/
def rhFooter (distro : String) : String :=
  if _is_suse distro then "STARTMODE=auto\n"
  else "ONBOOT=yes\nNM_CONTROLLED=no\nTYPE=Ethernet\n"

/-- `_network_config(distro)['static']`, formatted (RedHat strips the
`TYPE=Ethernet` line from the static footer). -/
def rhStatic (distro name hwaddr ip mask : String) : String :=
  if _is_suse distro then
    rhHeader distro "static" name hwaddr ++ "\nIPADDR=" ++ ip ++ "\nNETMASK=" ++ mask
      ++ "\n" ++ rhFooter distro
  else
    rhHeader distro "static" name hwaddr ++ "\nIPADDR=" ++ ip ++ "\nNETMASK=" ++ mask
      ++ "\n" ++ "ONBOOT=yes\nNM_CONTROLLED=no\n"

/-- `_network_config(distro)['dhcp']` / `['none']`, formatted. -/
def rhDhcpNone (distro bootproto name hwaddr : String) : String :=
  rhHeader distro bootproto name hwaddr ++ "\n" ++ rhFooter distro

/-- `_set_rh_vlan`. -/
def _set_rh_vlan (name : String) (interface : Iface) (distro : String) : String :=
  match interface.vlan_id with
  | none => ""
  | some vid =>
    if _is_suse distro then
      "VLAN_ID=" ++ toString vid ++ "\n"
        ++ "ETHERDEVICE=" ++ (pySplit name ".").headD "" ++ "\n"
    else
      "VLAN=yes\n"

/-- `_set_rh_bonding`: appends bonding keys (or rewrites `STARTMODE` on SUSE
slaves); a no-op when the interface carries no bonding keys. -/
def _set_rh_bonding (interface : Iface) (distro : String) (results : String) :
    Except PyErr String := do
  if !(interface.bond_slaves.isSome || interface.bond_master.isSome) then
    pure results
  else if _is_suse distro then
    match interface.bond_slaves with
    | some slaves =>
        pure (results ++ "BONDING_MASTER=yes\n"
          ++ strJoin (slaves.enum.map (fun p =>
              "BONDING_SLAVE_" ++ toString p.1 ++ "=" ++ p.2 ++ "\n")))
    | none => pure (pyReplace results "=auto" "=hotplug")
  else
    match interface.bond_slaves with
    | some _ => pure results
    | none => do
        let bm ← req interface.bond_master
        pure (results ++ "SLAVE=yes\n" ++ "MASTER=" ++ bm ++ "\n")

/-- A collected route row (`net`, `mask`, `gw`) of `_write_rh_interface`. -/
structure RhRoute where
  net : String
  mask : String
  gw : String
  deriving Repr, DecidableEq

/-- The route loop of `_write_rh_interface`: a `0.0.0.0/0.0.0.0` route turns
into `DEFROUTE`/`GATEWAY` lines in the ifcfg body (non-SUSE) or a `default`
row (SUSE); every other route is collected as a generic row. -/
def rhRouteFold (distro : String) :
    List Route → String × List RhRoute → Except PyErr (String × List RhRoute)
  | [], st => .ok st
  | route :: rest, (res, acc) => do
      let net ← req route.network
      let mask ← req route.netmask
      let gw ← req route.gateway
      if net = "0.0.0.0" && mask = "0.0.0.0" then
        if !(_is_suse distro) then
          rhRouteFold distro rest
            (res ++ "DEFROUTE=yes\n" ++ "GATEWAY=" ++ gw ++ "\n", acc)
        else
          rhRouteFold distro rest (res, acc ++ [⟨"default", "", gw⟩])
      else
        rhRouteFold distro rest (res, acc ++ [⟨net, mask, gw⟩])

/-- The numbered `route-<name>` / `ifroute-<name>` file body. -/
def rhRouteContent (distro : String) (routes : List RhRoute) : String :=
  strJoin (routes.enum.map (fun p =>
    if !(_is_suse distro) then
      "ADDRESS" ++ toString p.1 ++ "=" ++ p.2.net ++ "\n"
        ++ "NETMASK" ++ toString p.1 ++ "=" ++ p.2.mask ++ "\n"
        ++ "GATEWAY" ++ toString p.1 ++ "=" ++ p.2.gw ++ "\n"
    else
      pyReplace (p.2.net ++ " " ++ p.2.gw ++ " " ++ p.2.mask ++ "\n") " \n" "\n"))

/-- `_write_rh_interface`. -/
def _write_rh_interface (name : String) (interface : Iface) (distro : String) :
    Except PyErr Files := do
  let hw ← req interface.mac_address
  let ip ← req interface.ip_address
  let mask ← req interface.netmask
  let results := rhStatic distro name hw ip mask ++ _set_rh_vlan name interface distro
  let results ← _set_rh_bonding interface distro results
  let rs ← req interface.routes
  let (results, routes) ← rhRouteFold distro rs (results, [])
  let files : Files :=
    if routes ≠ [] then
      [((_network_files distro).2 ++ "-" ++ name, rhRouteContent distro routes)]
    else []
  pure (aset files ((_network_files distro).1 ++ "-" ++ name) results)

/-- `_write_rh_dhcp`. -/
def _write_rh_dhcp (name : String) (interface : Iface) (distro : String) :
    Except PyErr Files := do
  let hw ← req interface.mac_address
  let results := rhDhcpNone distro "dhcp" name hw ++ _set_rh_vlan name interface distro
  let results ← _set_rh_bonding interface distro results
  pure [((_network_files distro).1 ++ "-" ++ name, results)]

/-- `_write_rh_manual`. -/
def _write_rh_manual (name : String) (interface : Iface) (distro : String) :
    Except PyErr Files := do
  let hw ← req interface.mac_address
  let results := rhDhcpNone distro "none" name hw ++ _set_rh_vlan name interface distro
  let results ← _set_rh_bonding interface distro results
  pure [((_network_files distro).1 ++ "-" ++ name, results)]

/-- One iteration of the RedHat declared-interface loop.  `ipv6` interfaces
are skipped before any work; note there is no existing-file check on this
path (only the DHCP-fallback loop has one). -/
def rhStep (distro : String) (sys : AList String) (files : Files)
    (entry : String × Iface) : Except PyErr Files := do
  let (iname, interface) := entry
  if interface.type = "ipv6" then pure files
  else do
    let m ← req interface.mac_address
    let raw_macs := interface.raw_macs.getD [m]
    if !(raw_macs.any (fun mc => amem sys mc)) then pure files
    else do
      let interface_name ←
        (if interface.vlan_id.isSome then do
          let vrd ← (if raw_macs.length = 1 then
              Except.ok (alookup sys (raw_macs.headD ""))
            else do
              let vl ← req interface.vlan_link
              Except.ok (some vl))
          Except.ok (pyStr vrd ++ "." ++ toString (interface.vlan_id.getD 0))
        else if interface.bond_mode.isSome then
          Except.ok (interface.link.getD iname)
        else
          dindex sys m)
      let interface ←
        (match interface.bond_links with
         | some _ => do
            let rms ← req interface.raw_macs
            let bond_slaves ← rms.mapM (fun phy => dindex sys phy)
            Except.ok { interface with bond_slaves := some bond_slaves,
                                       bond_links := none }
         | none => Except.ok interface)
      let files ← (if interface.type = "ipv4" then do
          pure (aupdate files (← _write_rh_interface interface_name interface distro))
        else pure files)
      let files ← (if interface.type = "ipv4_dhcp" then do
          pure (aupdate files (← _write_rh_dhcp interface_name interface distro))
        else pure files)
      let files ← (if interface.type = "manual" then do
          pure (aupdate files (← _write_rh_manual interface_name interface distro))
        else pure files)
      pure files

/-- One iteration of the RedHat DHCP-fallback loop; `ex name` models the
existence of the dialect's `ifcfg-<name>` file. -/
def rhFallbackStep (distro : String) (interfaces : AList Iface) (lastI : Option Iface)
    (ex : String → Bool) (files : Files) (entry : String × String) :
    Except PyErr Files := do
  let (mac, iname) := entry
  if ex iname then pure files
  else do
    let inter_macs ← interMacs interfaces
    let link_macs := linkMacs interfaces lastI
    if mac ∈ inter_macs || (some mac) ∈ link_macs then pure files
    else do
      let w ← _write_rh_dhcp iname { id := "", type := "", mac_address := some mac } distro
      pure (aupdate files w)

/-- `write_redhat_interfaces`. -/
def write_redhat_interfaces (interfaces : AList Iface) (sys : AList String)
    (distro : String) (ex : String → Bool) : Except PyErr Files := do
  let sorted := sortedByIdVal interfaces
  let files ← sorted.foldlM (rhStep distro sys) ([] : Files)
  let lastI := (sorted.getLast?).map (·.2)
  (sortedByName sys).foldlM (rhFallbackStep distro interfaces lastI ex) files

/-! ## Gentoo/openrc renderer (file outputs; the rc-update/symlink side
effects are external collaborators and not modelled) -/

/-- One route string of the Gentoo `routes_` variable. -/
def gentooRouteStr (route : Route) : Except PyErr String := do
  let net ← req route.network
  let mask ← req route.netmask
  let gw ← req route.gateway
  if net = "0.0.0.0" && mask = "0.0.0.0" then
    pure ("default via " ++ gw)
  else
    pure (net ++ " netmask " ++ mask ++ " via " ++ gw)

/-- The per-interface body accumulated by `_write_gentoo_interface`. -/
def gentooIfaceFold (name : String) :
    List Iface → String × List Nat → Except PyErr (String × List Nat)
  | [], st => .ok st
  | interface :: rest, (results, vlans) => do
      let (iname, vlans) := match interface.vlan_id with
        | some vid => (name ++ "_" ++ toString vid, vlans ++ [vid])
        | none => (name, vlans)
      let results ← (if interface.type = "ipv4" then do
          let ip ← req interface.ip_address
          let mask ← req interface.netmask
          let hw ← req interface.mac_address
          let base := "config_" ++ iname ++ "=\"" ++ ip ++ " netmask " ++ mask
            ++ "\"\n" ++ "mac_" ++ iname ++ "=\"" ++ hw ++ "\"\n"
          let rs ← req interface.routes
          let routeStrs ← rs.mapM gentooRouteStr
          if routeStrs ≠ [] then
            -- the `routes_` variable is keyed by the outer name, not iname
            pure (results ++ base ++ "routes_" ++ name ++ "=\""
              ++ String.intercalate "\n" routeStrs ++ "\"\n")
          else
            pure (results ++ base)
        else if interface.type = "manual" then do
          let hw ← req interface.mac_address
          pure (results ++ "config_" ++ iname ++ "=\"null\"\nmac_" ++ iname
            ++ "=\"" ++ hw ++ "\"\n")
        else do
          let hw ← req interface.mac_address
          pure (results ++ "config_" ++ iname ++ "=\"dhcp\"\nmac_" ++ iname
            ++ "=\"" ++ hw ++ "\"\n"))
      let results ← (match interface.bond_mode with
        | some mode => do
            let slaves ← req interface.slaves
            Except.ok (results ++ "slaves_" ++ iname ++ "=\""
              ++ String.intercalate " " slaves ++ "\"\n"
              ++ "mode_" ++ iname ++ "=\"" ++ mode ++ "\"\n")
        | none => Except.ok results)
      gentooIfaceFold name rest (results, vlans)

/-- `_write_gentoo_interface`. -/
def _write_gentoo_interface (name : String) (interfaces : List Iface) :
    Except PyErr Files := do
  let (results, vlans) ← gentooIfaceFold name interfaces ("", [])
  let full := "# Automatically generated, do not edit\n"
    ++ (if vlans ≠ [] then
        "vlans_" ++ name ++ "=\""
          ++ String.intercalate " " (vlans.map toString) ++ "\"\n"
      else "")
    ++ results
  pure [("/etc/conf.d/net." ++ name, full)]

/-- The grouping map `gen_intfs`, keyed by raw-MAC tuple in insertion order. -/
abbrev GenIntfs : Type := List (List String × List Iface)

/-- Append an interface under its raw-MAC key. -/
def ginsert (g : GenIntfs) (key : List String) (i : Iface) : GenIntfs :=
  match g with
  | [] => [(key, [i])]
  | (k, l) :: rest => if k = key then (k, l ++ [i]) :: rest else (k, l) :: ginsert rest key i

/-- One iteration of the Gentoo declared-interface grouping loop (`ipv6`
interfaces are skipped before any file generation). -/
def gentooCollectStep (sys : AList String) (g : GenIntfs) (entry : String × Iface) :
    Except PyErr GenIntfs := do
  let interface := entry.2
  if interface.type = "ipv6" then pure g
  else do
    let m ← req interface.mac_address
    let raw_macs := interface.raw_macs.getD [m]
    if !(raw_macs.any (fun mc => amem sys mc)) then pure g
    else do
      let interface ← (match interface.bond_mode with
        | some _ => do
            let rms ← req interface.raw_macs
            let slaves ← rms.mapM (fun mc => dindex sys mc)
            Except.ok { interface with slaves := some slaves }
        | none => Except.ok interface)
      match interface.raw_macs with
      | some rms => pure (ginsert g rms interface)
      | none => pure (ginsert g [m] interface)

/-- Resolve a group's rendered device name: the kernel name for a single
MAC, else the bond member's `link` (or id); `next(...)` on a group with no
bond raises `StopIteration`. -/
def groupName (sys : AList String) (grp : List String × List Iface) :
    Except PyErr String :=
  if grp.1.length = 1 then dindex sys (grp.1.headD "")
  else
    match grp.2.find? (fun intf => intf.bond_mode.isSome) with
    | some intf => .ok (intf.link.getD intf.id)
    | none => .error .stopIteration

/-- `write_gentoo_interfaces`; `ex name` models the existence of
`/etc/conf.d/net.{name}`. -/
def write_gentoo_interfaces (interfaces : AList Iface) (sys : AList String)
    (ex : String → Bool) : Except PyErr Files := do
  let sorted := sortedByIdVal interfaces
  let g ← sorted.foldlM (gentooCollectStep sys) ([] : GenIntfs)
  let files ← g.foldlM (fun files grp => do
      let interface_name ← groupName sys grp
      pure (aupdate files (← _write_gentoo_interface interface_name grp.2)))
    ([] : Files)
  (sortedByName sys).foldlM (fun files entry => do
      let (mac, iname) := entry
      if ex iname then pure files
      else if g.any (fun p => p.1 = [mac]) then pure files
      else pure (aupdate files (← _write_gentoo_interface iname
        [{ id := "", type := "ipv4_dhcp", mac_address := some mac }]))) files

/-! ## systemd-networkd renderer -/

/-- The section-structured value of one `files_struct` entry; an absent
section key is `none`. -/
structure NdFile where
  matchSec : Option (List String) := none
  networkSec : Option (List String) := none
  addresses : Option (List String) := none
  routes : Option (List (Option String × Option String)) := none
  netdevSec : Option (List String) := none
  vlanSec : Option (List String) := none
  bondSec : Option (List String) := none
  deriving Repr, DecidableEq

/-- Ensure a `files_struct` entry exists. -/
def ndEnsure (fs : AList NdFile) (path : String) : AList NdFile :=
  if amem fs path then fs else aset fs path {}

/-- Read a `files_struct` entry (present after `ndEnsure`). -/
def ndGet (fs : AList NdFile) (path : String) : NdFile :=
  (alookup fs path).getD {}

/-- One interface of `_write_networkd_interface`: mutate `files_struct` and
accumulate the vlan-name list. -/
def ndStep (name : String) (st : AList NdFile × List String) (interface : Iface) :
    Except PyErr (AList NdFile × List String) := do
  let (fs, vlans) := st
  let (iname, vlans) := match interface.vlan_id with
    | some vid => (name ++ "-vlan" ++ toString vid, vlans ++ [name ++ "-vlan" ++ toString vid])
    | none => (name, vlans)
  let network_file := "/etc/systemd/network/" ++ iname ++ ".network"
  let fs := ndEnsure fs network_file
  let nf := ndGet fs network_file
  let m ← req interface.mac_address
  let nf := { nf with
    matchSec := some ((nf.matchSec.getD []) ++ ["MACAddress=" ++ m, "Name=" ++ iname]) }
  let nf := if (interface.type ∈ ["ipv4_dhcp", "ipv6_slaac", "ipv6_dhcpv6_stateful",
        "manual", "ipv4", "ipv6"])
      || interface.vlan_id.isSome || interface.bond_mode.isSome then
      { nf with networkSec := some (nf.networkSec.getD []) }
    else nf
  let nf ← (if interface.type = "ipv4_dhcp" then do
      let ns ← req nf.networkSec
      Except.ok { nf with
        networkSec := some (ns ++ [if "DHCP=ipv6" ∈ ns then "DHCP=yes" else "DHCP=ipv4"]) }
    else Except.ok nf)
  let nf ← (if interface.type = "ipv6_dhcpv6_stateful" then do
      let ns ← req nf.networkSec
      Except.ok { nf with
        networkSec := some (ns ++ [if "DHCP=ipv4" ∈ ns then "DHCP=yes" else "DHCP=ipv6"]) }
    else Except.ok nf)
  let nf ← (if interface.type = "ipv6_slaac" then do
      let ns ← req nf.networkSec
      let ns := if "IPv6AcceptRA=no" ∈ ns then ns.erase "IPv6AcceptRA=no" else ns
      Except.ok { nf with networkSec := some (ns ++ ["IPv6AcceptRA=yes"]) }
    else do
      let ns ← req nf.networkSec
      Except.ok (if "IPv6AcceptRA=yes" ∈ ns then nf
        else { nf with networkSec := some (ns ++ ["IPv6AcceptRA=no"]) }))
  let nf := if interface.type ∈ ["ipv4", "ipv6"] then
      { nf with addresses := some (nf.addresses.getD []) }
    else nf
  let nf ← (if interface.type = "ipv4" then do
      let ip ← req interface.ip_address
      let mask ← req interface.netmask
      let len ← ipv4_netmask_length mask
      let ad ← req nf.addresses
      Except.ok { nf with
        addresses := some (ad ++ ["Address=" ++ ip ++ "/" ++ toString len]) }
    else Except.ok nf)
  let nf ← (if interface.type = "ipv6" then do
      let ip ← req interface.ip_address
      let mask ← req interface.netmask
      let len ← ipv6_netmask_length mask
      let ad ← req nf.addresses
      Except.ok { nf with
        addresses := some (ad ++ ["Address=" ++ ip ++ "/" ++ toString len]) }
    else Except.ok nf)
  let nf ← (match interface.routes with
    | some rs => do
        let rts ← rs.foldlM (fun acc route => do
            let dest ← (match route.network with
              | some net => do
                  let mask ← req route.netmask
                  let cidr ← (if strContains interface.type "v6" then
                      ipv6_netmask_length mask
                    else ipv4_netmask_length mask)
                  Except.ok (some ("Destination=" ++ net ++ "/" ++ toString cidr))
              | none => Except.ok none)
            let gw := route.gateway.map (fun g => "Gateway=" ++ g)
            pure (acc ++ [(dest, gw)])) (nf.routes.getD [])
        Except.ok { nf with routes := some rts }
    | none => Except.ok nf)
  let fs := aset fs network_file nf
  -- `if 'bond_mode' or 'vlan_id' in interface:` — the left operand is the
  -- truthy string literal, so a .netdev entry is created unconditionally
  let netdev_file := "/etc/systemd/network/" ++ iname ++ ".netdev"
  let fs := ndEnsure fs netdev_file
  let nd := ndGet fs netdev_file
  let nd := { nd with netdevSec := some ((nd.netdevSec.getD []) ++ ["Name=" ++ iname]) }
  let nd := match interface.mac_address with
    | some mm => { nd with netdevSec := some ((nd.netdevSec.getD []) ++ ["MACAddress=" ++ mm]) }
    | none => nd
  let nd := match interface.vlan_id with
    | some vid => { nd with netdevSec := some ((nd.netdevSec.getD []) ++ ["Kind=vlan"]),
                            vlanSec := some ["Id=" ++ toString vid] }
    | none => nd
  let (fs, nd) ← (match interface.bond_mode with
    | some mode => do
        let nd := { nd with netdevSec := some ((nd.netdevSec.getD []) ++ ["Kind=bond"]),
                            bondSec := some ["Mode=" ++ mode, "LACPTransmitRate=fast"] }
        let fs := (match interface.slaves with
          | some slaves => slaves.foldl (fun fs slave =>
              let p := "/etc/systemd/network/" ++ slave ++ ".network"
              let fs := ndEnsure fs p
              let e := ndGet fs p
              aset fs p { e with
                networkSec := some ((e.networkSec.getD []) ++ ["Bond=" ++ iname]) }) fs
          | none => fs)
        let nd := match interface.bond_xmit_hash_policy with
          | some xp => { nd with
              bondSec := some ((nd.bondSec.getD []) ++ ["TransmitHashPolicy=" ++ xp]) }
          | none => nd
        let nd := match interface.bond_miimon with
          | some mm => { nd with
              bondSec := some ((nd.bondSec.getD []) ++ ["MIIMonitorSec=" ++ toString mm]) }
          | none => nd
        Except.ok (fs, nd)
    | none => Except.ok (fs, nd))
  pure (aset fs netdev_file nd, vlans)

/-- `_write_networkd_interface`: the per-interface loop plus the forward and
reverse vlan mapping. -/
def _write_networkd_interface (name : String) (interfaces : List Iface)
    (fs : AList NdFile) : Except PyErr (AList NdFile) := do
  let (fs, vlans) ← interfaces.foldlM (ndStep name) (fs, ([] : List String))
  match vlans with
  | [] => pure fs
  | v0 :: _ =>
    let netdev := (pySplit v0 "-").headD ""
    let master := "/etc/systemd/network/" ++ netdev ++ ".network"
    let fs := ndEnsure fs master
    let e := ndGet fs master
    let fs := aset fs master { e with networkSec := some (e.networkSec.getD []) }
    pure (vlans.foldl (fun fs vlan =>
      let e := ndGet fs master
      let fs := aset fs master { e with
        networkSec := some ((e.networkSec.getD []) ++ ["VLAN=" ++ vlan]) }
      let vf := "/etc/systemd/network/" ++ vlan ++ ".network"
      let fs := ndEnsure fs vf
      let ev := ndGet fs vf
      let fs := if ev.networkSec.isSome then fs
        else aset fs vf { ev with networkSec := some [] }
      let ev := ndGet fs vf
      aset fs vf { ev with
        networkSec := some ((ev.networkSec.getD []) ++ ["VLAN=" ++ vlan]) }) fs)

/-- `sorted(set(lines))`, each followed by a newline, then a blank line. -/
def ndRenderLines (ls : List String) : String :=
  strJoin ((sortedSet ls).map (fun l => l ++ "\n")) ++ "\n"

/-- Serialize one `files_struct` entry in the source's fixed section order. -/
def ndRender (nf : NdFile) : String :=
  "# Automatically generated, do not edit\n"
  ++ (match nf.matchSec with
      | some ls => "[Match]\n" ++ ndRenderLines ls
      | none => "")
  ++ (match nf.networkSec with
      | some ls => "[Network]\n" ++ ndRenderLines ls
      | none => "")
  ++ (match nf.addresses with
      | some ads => strJoin (ads.map (fun a => "[Address]\n" ++ a ++ "\n\n"))
      | none => "")
  ++ (match nf.routes with
      | some rts => strJoin (rts.map (fun r =>
          "[Route]\n"
          ++ (match r.1 with | some d => d ++ "\n" | none => "")
          ++ (match r.2 with | some g => g ++ "\n" | none => "")
          ++ "\n"))
      | none => "")
  ++ (match nf.netdevSec with
      | some ls => "[NetDev]\n" ++ ndRenderLines ls
      | none => "")
  ++ (match nf.vlanSec with
      | some ls => "[VLAN]\n" ++ ndRenderLines ls
      | none => "")
  ++ (match nf.bondSec with
      | some ls => "[Bond]\n" ++ ndRenderLines ls
      | none => "")

/-- One iteration of the networkd declared-interface grouping loop (same
shape as Gentoo's, but without the `ipv6` skip). -/
def ndCollectStep (sys : AList String) (g : GenIntfs) (entry : String × Iface) :
    Except PyErr GenIntfs := do
  let interface := entry.2
  let m ← req interface.mac_address
  let raw_macs := interface.raw_macs.getD [m]
  if !(raw_macs.any (fun mc => amem sys mc)) then pure g
  else do
    let interface ← (match interface.bond_mode with
      | some _ => do
          let rms ← req interface.raw_macs
          let slaves ← rms.mapM (fun mc => dindex sys mc)
          Except.ok { interface with slaves := some slaves }
      | none => Except.ok interface)
    match interface.raw_macs with
    | some rms => pure (ginsert g rms interface)
    | none => pure (ginsert g [m] interface)

/-- `write_networkd_interfaces`; the fallback loop's existence check is the
source's (gentoo-path) `_exists_gentoo_interface`, modelled by `exConfD`. -/
def write_networkd_interfaces (interfaces : AList Iface) (sys : AList String)
    (exConfD : String → Bool) : Except PyErr Files := do
  let sorted := sortedByIdVal interfaces
  let g ← sorted.foldlM (ndCollectStep sys) ([] : GenIntfs)
  let fstruct ← g.foldlM (fun fs grp => do
      let interface_name ← groupName sys grp
      _write_networkd_interface interface_name grp.2 fs) ([] : AList NdFile)
  let fstruct ← (sortedByName sys).foldlM (fun fs entry => do
      let (mac, iname) := entry
      if exConfD iname then pure fs
      else if g.any (fun p => p.1 = [mac]) then pure fs
      else
        _write_networkd_interface iname
          [{ id := "", type := "ipv4_dhcp", mac_address := some mac }] fs) fstruct
  pure (fstruct.foldl (fun files kv => aset files kv.1 (ndRender kv.2)) [])

/-! ## `finish_files` (persistence) -/

/-- Outcome the host filesystem gives one write attempt. -/
inductive WriteOutcome where
  | success
  | ioError (errnoVal : Nat)
  deriving Repr, DecidableEq

/-- Observable persistence actions, in order. -/
inductive FileAction where
  | wroteFile (path : String)
  | unlinked (path : String)
  | skippedBlank (path : String)
  | printedNoop (path : String)
  deriving Repr, DecidableEq

/-- Linux `errno.ELOOP`. -/
def errnoELOOP : Nat := 40

/-- Linux `errno.EACCES` (note: the source instead spells `errno.EACCESS`,
an attribute the `errno` module does not have). -/
def errnoEACCES : Nat := 13

/-- The write-retry loop of `finish_files` for one path, driven by the
host's outcome for attempt 0 and (after an unlink) attempt 1.  An `ELOOP`
failure unlinks and retries once.  Every other failure path evaluates
`e.errno == errno.EACCESS`, and since the `errno` module has no `EACCESS`
attribute this raises `AttributeError`: the intended read-only skip and the
intended re-raise are both unreachable. -/
def writeOne (w : String → Nat → WriteOutcome) (k : String) :
    Except PyErr (List FileAction) :=
  match w k 0 with
  | .success => .ok [.wroteFile k]
  | .ioError n =>
    if n = errnoELOOP then
      match w k 1 with
      | .success => .ok [.unlinked k, .wroteFile k]
      | .ioError _ => .error .attributeError
    else .error .attributeError

/-- `finish_files`: iterate the path→content map in sorted path order,
skipping blank bodies, printing in no-op mode, else writing through
`writeOne`. -/
def finish_files (files_to_write : Files) (noop : Bool)
    (w : String → Nat → WriteOutcome) : Except PyErr (List FileAction) := do
  let files := sortBy strLe (files_to_write.map (·.1))
  files.foldlM (fun acc k => do
    match alookup files_to_write k with
    | none => pure acc
    | some content =>
      if content = "" then pure (acc ++ [.skippedBlank k])
      else if noop then pure (acc ++ [.printedNoop k])
      else do
        let acts ← writeOne w k
        pure (acc ++ acts)) []

/-! ## `get_sys_interfaces` (device probe) -/

/-- The host state the probe reads: the device list, the pre-existing
vlan/bridge config detection, per-device attributes, and the carrier signal
at the initial check and at each of the bounded poll iterations. -/
structure SysEnv where
  devices : List String
  isVlanCfg : String → Bool
  isBridgeCfg : String → Bool
  addrAssignType : String → String
  macOf : String → String
  initLive : String → Bool
  live : String → Nat → Bool

/-- Kernel type value for permanent MAC addresses. -/
def PERMANENT_ADDR_TYPE : String := "0"

/-- The prefixes of always-ignored device names. -/
def ignoredPrefixes : List String :=
  ["sit", "tunl", "bonding_master", "teql", "ip6gre", "ip6_vti", "ip6tnl",
   "bond", "lo"]

/-- One candidate device of the `if_dict` build: skip devices with
pre-existing vlan/bridge config or a non-permanent address type;
`interface_live` reports an already-up link live, and otherwise — outside
no-op mode — issues a single `ip link set up` and returns `True`
unconditionally. -/
def probeStep (env : SysEnv) (noop : Bool) (d : AList String) (iface : String) :
    AList String :=
  if env.isVlanCfg iface then d
  else if env.isBridgeCfg iface then d
  else if env.addrAssignType iface ≠ PERMANENT_ADDR_TYPE then d
  else if env.initLive iface then aset d iface (env.macOf iface)
  else if noop then d
  else aset d iface (env.macOf iface)

/-- Build `if_dict` (device name → MAC). -/
def buildIfDict (env : SysEnv) (noop : Bool) (ifaces : List String) : AList String :=
  ifaces.foldl (probeStep env noop) []

/-- One pass of the carrier-wait loop at poll index `x`: record every not-yet-up
device that now reads live. -/
def pollOnce (env : SysEnv) (x : Nat) (if_dict : AList String)
    (st : AList String × List String) : AList String × List String :=
  if_dict.foldl (fun (st : AList String × List String) kv =>
    let (sys, ups) := st
    if kv.1 ∈ ups then (sys, ups)
    else if env.live kv.1 x then (aset sys kv.2 kv.1, ups ++ [kv.1])
    else (sys, ups)) st

/-- The bounded wait: up to 90 polls, breaking early once every `if_dict`
device is up. -/
def pollLoop (env : SysEnv) (if_dict : AList String) :
    Nat → AList String × List String → AList String × List String
  | 0, st => st
  | n + 1, st =>
    let st := pollOnce env (90 - (n + 1)) if_dict st
    if sortBy strLe st.2 = sortBy strLe (if_dict.map (·.1)) then st
    else pollLoop env if_dict n st

/-- The devices the probe considers: the `--interface` argument alone, or
every listed device whose name has no ignored prefix. -/
def probeCandidates (interfaceArg : Option String) (env : SysEnv) : List String :=
  match interfaceArg with
  | some i => [i]
  | none => env.devices.filter (fun f => !(ignoredPrefixes.any (fun p => pyIsPrefixOf p f)))

/-- `get_sys_interfaces`: returns the MAC→name map of devices that reached
carrier-up plus the names of devices that timed out (the `log.warn` set). -/
def get_sys_interfaces (interfaceArg : Option String) (noop : Bool) (env : SysEnv) :
    AList String × List String :=
  let if_dict := buildIfDict env noop (probeCandidates interfaceArg env)
  let (sys, ups) := pollLoop env if_dict 90 ([], [])
  let warnings := if sortBy strLe ups ≠ sortBy strLe (if_dict.map (·.1)) then
      (if_dict.filter (fun kv => kv.1 ∉ ups)).map (·.1)
    else []
  (sys, warnings)

/-! ## Observers and concrete inputs used by the claim theorems -/

/-- Membership of a path in a renderer result (false on an exception). -/
def exceptFilesMem (r : Except PyErr Files) (p : String) : Bool :=
  match r with
  | .ok fs => amem fs p
  | .error _ => false

/-- Content at a path in a renderer result. -/
def exceptFilesAt (r : Except PyErr Files) (p : String) : Option String :=
  match r with
  | .ok fs => alookup fs p
  | .error _ => none

/-- Number of lines of `s` that start with `DHCP=`. -/
def countDHCPLines (s : String) : Nat :=
  ((pySplit s "\n").filter (fun l => pyIsPrefixOf "DHCP=" l)).length

/-- The lines of `s` that start with `DHCP=`. -/
def dhcpLines (s : String) : List String :=
  (pySplit s "\n").filter (fun l => pyIsPrefixOf "DHCP=" l)

/-- Spec-side default-route test of the RedHat/Gentoo dialects
(v4 all-zeros only). -/
def rhIsDefault (r : Route) : Bool :=
  r.network = some "0.0.0.0" && r.netmask = some "0.0.0.0"

/-- Spec-side: the ifcfg lines one default route contributes on RedHat. -/
def rhDefLine (r : Route) : String :=
  "DEFROUTE=yes\n" ++ "GATEWAY=" ++ r.gateway.getD "" ++ "\n"

/-- Spec-side: the generic route row one non-default route contributes. -/
def rhGenericRow (r : Route) : RhRoute :=
  ⟨r.network.getD "", r.netmask.getD "", r.gateway.getD ""⟩

/-- All three route keys present. -/
def routeComplete (r : Route) : Prop :=
  r.network.isSome ∧ r.netmask.isSome ∧ r.gateway.isSome

/- Concrete provider graph with a two-slave bond and a vlan on it. -/

/-- First physical link of the concrete bond graph. -/
def cPhys1 : Iface :=
  { id := "eth0i"
    type := "phy"
    ethernet_mac_address := some "AA:BB:CC:00:00:01" }

/-- Second physical link of the concrete bond graph. -/
def cPhys2 : Iface :=
  { id := "eth1i"
    type := "phy"
    ethernet_mac_address := some "AA:BB:CC:00:00:02" }

/-- The bond link over the two physical links. -/
def cBondL : Iface :=
  { id := "bond0"
    type := "bond"
    ethernet_mac_address := some "AA:BB:CC:00:00:01"
    bond_links := some ["eth0i", "eth1i"]
    bond_mode := some "802.3ad" }

/-- The vlan link atop the bond. -/
def cVlanL : Iface :=
  { id := "vlan101"
    type := "vlan"
    vlan_id := some 101
    vlan_link := some "bond0" }

/-- Network attached to the bond. -/
def cNetBond : NetworkRec :=
  { id := "netBond"
    link := "bond0"
    type := "ipv4"
    ip_address := some "192.0.2.10"
    netmask := some "255.255.255.0"
    routes := some [] }

/-- Network attached to the vlan. -/
def cNetVlan : NetworkRec :=
  { id := "netVlan"
    link := "vlan101"
    type := "ipv4"
    ip_address := some "192.0.2.20"
    netmask := some "255.255.255.0"
    routes := some [] }

/-- The complete bond+vlan payload. -/
def cNet5 : NetInfo :=
  { networks := some [cNetBond, cNetVlan]
    links := some [cPhys1, cPhys2, cBondL, cVlanL] }

/-- A vlan link whose `vlan_link` id resolves to no link at all. -/
def cVlanDangling : Iface :=
  { id := "v0"
    type := "vlan"
    vlan_id := some 5
    vlan_link := some "missing" }

/-- Payload with only the dangling vlan. -/
def cNetDV : NetInfo :=
  { networks := some [{ id := "n0", link := "v0", type := "ipv4" }]
    links := some [cVlanDangling] }

/-- A bond link with a dangling slave id. -/
def cBondDangling : Iface :=
  { id := "b0"
    type := "bond"
    ethernet_mac_address := some "aa"
    bond_links := some ["nope"] }

/-- Payload with only the dangling bond. -/
def cNetDB : NetInfo :=
  { networks := some []
    links := some [cBondDangling] }

/-- A network whose `link` id resolves to nothing. -/
def cNetGhost : NetworkRec :=
  { id := "n0"
    link := "ghost"
    type := "ipv4" }

/-- A well-attached network beside the dangling one. -/
def cNetP0 : NetworkRec :=
  { id := "n1"
    link := "p0"
    type := "ipv4"
    ip_address := some "10.0.0.1"
    netmask := some "255.0.0.0"
    routes := some [] }

/-- The physical link for `cNetP0`. -/
def cP0 : Iface :=
  { id := "p0"
    type := "phy"
    ethernet_mac_address := some "AA:00:00:00:00:01" }

/-- Payload with one dangling and one resolvable network. -/
def cNetDN : NetInfo :=
  { networks := some [cNetGhost, cNetP0]
    links := some [cP0] }

/-- A resolved manual bond interface whose `raw_macs` cover two devices. -/
def c4Bond : Iface :=
  { id := "bond0"
    type := "manual"
    mac_address := some "aa:bb:cc:00:00:01"
    raw_macs := some ["aa:bb:cc:00:00:01", "aa:bb:cc:00:00:02"]
    bond_mode := some "802.3ad" }

/-- Interface map containing only the bond. -/
def c4Ifaces : AList Iface := [("bond0", c4Bond)]

/-- Two discovered devices: the bond's two slaves. -/
def c4Sys : AList String :=
  [("aa:bb:cc:00:00:01", "eth0"), ("aa:bb:cc:00:00:02", "eth1")]

/-- A plain static ipv4 interface with a default route. -/
def c2Iface : Iface :=
  { id := "network0"
    type := "ipv4"
    mac_address := some "aa:bb:cc:00:00:01"
    ip_address := some "192.0.2.10"
    netmask := some "255.255.255.0"
    routes := some [{ network := some "0.0.0.0", netmask := some "0.0.0.0",
                      gateway := some "192.0.2.1" }] }

/-- A static ipv4 interface whose only route is the v6 all-zeros route. -/
def c7Iface : Iface :=
  { id := "network0"
    type := "ipv4"
    mac_address := some "aa:bb:cc:00:00:01"
    ip_address := some "192.0.2.10"
    netmask := some "255.255.255.0"
    routes := some [{ network := some "::", netmask := some "::",
                      gateway := some "fe80::1" }] }

/-- DHCPv4 network of the dual-stack networkd scenario. -/
def c8I1 : Iface :=
  { id := "network0"
    type := "ipv4_dhcp"
    mac_address := some "aa:bb:cc:00:00:01" }

/-- Stateful-DHCPv6 network of the dual-stack networkd scenario. -/
def c8I2 : Iface :=
  { id := "network1"
    type := "ipv6_dhcpv6_stateful"
    mac_address := some "aa:bb:cc:00:00:01" }

/-- SLAAC network on the same device. -/
def c8I3 : Iface :=
  { id := "network1"
    type := "ipv6_slaac"
    mac_address := some "aa:bb:cc:00:00:01" }

/-- The physical bucket of the concrete bond graph, as `bucketLinks` builds it. -/
def c5Phys : AList Iface := [("eth0i", cPhys1), ("eth1i", cPhys2)]

/-- The bond bucket of the concrete bond graph. -/
def c5Bonds : AList Iface := [("bond0", cBondL)]

/-- The slave-id → raw-MAC table of the concrete bond graph. -/
def c5Macs : String → String :=
  fun i => if i = "eth0i" then "AA:BB:CC:00:00:01" else "AA:BB:CC:00:00:02"

/-- Stateful-DHCPv6 network with the first-sorted id (for processing order). -/
def c8I4 : Iface :=
  { id := "network0"
    type := "ipv6_dhcpv6_stateful"
    mac_address := some "aa:bb:cc:00:00:01" }

/-- An ipv6-type interface (for the skip-in-RedHat/Gentoo witness). -/
def c10Iface : Iface :=
  { id := "n"
    type := "ipv6"
    mac_address := some "aa:bb:cc:00:00:01"
    ip_address := some "2001:db8::2"
    netmask := some "ffff:ffff:ffff:ffff::" }

/-- Probe host with one device that is up at once and one whose carrier
never rises within the 90-poll bound. -/
def c6Env : SysEnv :=
  { devices := ["eth0", "eth1", "lo"]
    isVlanCfg := fun _ => false
    isBridgeCfg := fun _ => false
    addrAssignType := fun _ => "0"
    macOf := fun d => if d = "eth0" then "aa:00" else "bb:00"
    initLive := fun d => d = "eth0"
    live := fun d _ => d = "eth0" }

/-- The probe invariant tracked through the carrier-wait loop: the device
`d` is neither a value of the MAC→name map nor in the up-list. -/
def ProbeAway (d : String) (st : AList String × List String) : Prop :=
  (∀ kv ∈ st.1, kv.2 ≠ d) ∧ d ∉ st.2

/-- The DHCP stanza the Debian fallback writes for a device name. -/
def debianDhcpStanza (iname : String) : String :=
  "auto " ++ iname ++ "\niface " ++ iname ++ " inet dhcp\n"

/-! ## Association-list and fold lemmas -/

theorem alookup_aset {α : Type} (d : AList α) (k k' : String) (v : α) :
    alookup (aset d k v) k' = if k = k' then some v else alookup d k' := by
  induction d with
  | nil => simp [aset, alookup]
  | cons hd tl ih =>
    obtain ⟨a, b⟩ := hd
    by_cases hak : a = k
    · subst hak
      by_cases hk' : a = k' <;> simp [aset, alookup, hk', ih]
    · by_cases hk' : a = k'
      · subst hk'
        have hka : k ≠ a := fun h => hak h.symm
        simp [aset, alookup, hak, hka, ih]
      · simp [aset, alookup, hak, hk', ih]

theorem amem_aset {α : Type} (d : AList α) (k k' : String) (v : α) :
    amem (aset d k v) k' = (decide (k = k') || amem d k') := by
  by_cases h : k = k' <;> simp [amem, alookup_aset, h]

theorem mem_of_mem_aset {α : Type} {d : AList α} {k : String} {v : α}
    {kv : String × α} (h : kv ∈ aset d k v) : kv ∈ d ∨ kv = (k, v) := by
  induction d with
  | nil => simpa [aset] using h
  | cons hd tl ih =>
    obtain ⟨a, b⟩ := hd
    by_cases hak : a = k
    · subst hak
      simp only [aset, if_pos rfl] at h
      rcases List.mem_cons.1 h with h | h
      · right; exact h
      · left; exact List.mem_cons_of_mem _ h
    · simp only [aset, if_neg hak] at h
      rcases List.mem_cons.1 h with h | h
      · left; exact h ▸ List.mem_cons_self _ _
      · rcases ih h with h | h
        · left; exact List.mem_cons_of_mem _ h
        · right; exact h

theorem alookup_mem {α : Type} {d : AList α} {k : String} {v : α}
    (h : alookup d k = some v) : (k, v) ∈ d := by
  induction d with
  | nil => simp [alookup] at h
  | cons hd tl ih =>
    obtain ⟨a, b⟩ := hd
    by_cases hak : a = k
    · subst hak
      have hb : b = v := by simpa [alookup] using h
      subst hb
      exact List.mem_cons_self _ _
    · simp only [alookup, if_neg hak] at h
      exact List.mem_cons_of_mem _ (ih h)

theorem alookup_isSome_mem_keys {α : Type} {d : AList α} {k : String}
    (h : (alookup d k).isSome) : k ∈ d.map (·.1) := by
  obtain ⟨v, hv⟩ := Option.isSome_iff_exists.1 h
  exact List.mem_map.2 ⟨(k, v), alookup_mem hv, rfl⟩

theorem mem_insertSorted {α : Type} (le : α → α → Bool) (x y : α) (l : List α) :
    y ∈ insertSorted le x l ↔ y = x ∨ y ∈ l := by
  induction l with
  | nil => simp [insertSorted]
  | cons hd tl ih =>
    by_cases h : le hd x = true
    · simp only [insertSorted, if_pos h, List.mem_cons, ih]
      tauto
    · simp only [insertSorted, if_neg h, List.mem_cons]

theorem mem_sortBy {α : Type} (le : α → α → Bool) (y : α) (l : List α) :
    y ∈ sortBy le l ↔ y ∈ l := by
  suffices h : ∀ acc, y ∈ l.foldl (fun acc x => insertSorted le x acc) acc ↔
      y ∈ acc ∨ y ∈ l by
    simpa [sortBy] using h []
  induction l with
  | nil => simp
  | cons hd tl ih =>
    intro acc
    simp only [List.foldl_cons, ih, mem_insertSorted, List.mem_cons]
    tauto

theorem foldlM_except_inv {α β : Type} (f : β → α → Except PyErr β) (P : β → Prop)
    (hf : ∀ b a b', P b → f b a = .ok b' → P b') :
    ∀ (l : List α) (b b' : β), P b → l.foldlM f b = .ok b' → P b' := by
  intro l
  induction l with
  | nil =>
    intro b b' hb hr
    simp only [List.foldlM_nil, pure, Except.pure] at hr
    cases hr
    exact hb
  | cons hd tl ih =>
    intro b b' hb hr
    simp only [List.foldlM_cons] at hr
    cases hfb : f b hd with
    | error e => rw [hfb] at hr; simp [Except.bind, Bind.bind] at hr
    | ok b1 =>
      rw [hfb] at hr
      simp only [Bind.bind, Except.bind] at hr
      exact ih b1 b' (hf b hd b1 hb hfb) hr

/-! ## Claim theorems -/

/-- C9: when the top-level `networks` or `links` key is absent,
`get_config_drive_interfaces` returns an empty interface map without
raising, so callers fall back to DHCP-only rendering. -/
theorem c9_missing_keys_empty_map (net : NetInfo)
    (h : net.networks = none ∨ net.links = none) :
    get_config_drive_interfaces net = .ok [] := by
  rcases h with h | h
  · cases hl : net.links <;>
      simp [get_config_drive_interfaces, h, hl, pure, Except.pure]
  · cases hn : net.networks <;>
      simp [get_config_drive_interfaces, h, hn, pure, Except.pure]

/-- Witness for C9 at a payload missing the `networks` key. -/
theorem c9_missing_keys_empty_map_witness :
    get_config_drive_interfaces { networks := none, links := some [cP0] } = .ok [] :=
  c9_missing_keys_empty_map { networks := none, links := some [cP0] } (Or.inl rfl)

/-- C10: both the RedHat/SUSE and the Gentoo declared-interface loops skip an
interface whose type is `ipv6` before any file generation: the loop step
leaves the accumulated state unchanged. -/
theorem c10_ipv6_skipped (distro : String) (sys : AList String) (files : Files)
    (g : GenIntfs) (e : String × Iface) (h : e.2.type = "ipv6") :
    rhStep distro sys files e = .ok files ∧ gentooCollectStep sys g e = .ok g := by
  obtain ⟨iname, interface⟩ := e
  simp only at h
  constructor
  · simp [rhStep, h, pure, Except.pure]
  · simp [gentooCollectStep, h, pure, Except.pure]

/-- Witness for C10 on a concrete ipv6 interface. -/
theorem c10_ipv6_skipped_witness :
    rhStep "redhat" [("aa:bb:cc:00:00:01", "eth0")] [] ("n", c10Iface) = .ok [] ∧
    gentooCollectStep [("aa:bb:cc:00:00:01", "eth0")] [] ("n", c10Iface) = .ok [] :=
  c10_ipv6_skipped "redhat" [("aa:bb:cc:00:00:01", "eth0")] [] []
    ("n", c10Iface) rfl

/-- C3 (code bug): a write failing with `EACCES` (read-only filesystem) does
not skip the file — evaluating the misspelt `errno.EACCESS` raises
`AttributeError` and aborts persistence; the `ELOOP` unlink-and-retry path
does work as specified. -/
theorem c3_eacces_attribute_error :
    finish_files [("/etc/resolv.conf", "nameserver 127.0.0.1\n")] false
      (fun _ _ => WriteOutcome.ioError errnoEACCES) = .error .attributeError
    ∧ finish_files [("/etc/resolv.conf", "nameserver 127.0.0.1\n")] false
      (fun _ n => if n = 0 then WriteOutcome.ioError errnoELOOP else .success)
      = .ok [.unlinked "/etc/resolv.conf", .wroteFile "/etc/resolv.conf"]
    ∧ finish_files [("/etc/resolv.conf", "nameserver 127.0.0.1\n")] false
      (fun _ _ => WriteOutcome.ioError errnoELOOP) = .error .attributeError := by
  exact ⟨rfl, rfl, rfl⟩

/-- C8 counterexample: one device carrying both a DHCPv4 and a stateful
DHCPv6 network renders a `[Network]` section with two `DHCP=` lines
(`DHCP=ipv4` and `DHCP=yes`), not exactly one. -/
theorem c8_counterexample :
    ((exceptFilesAt (write_networkd_interfaces
        [("network0", c8I1), ("network1", c8I2)]
        [("aa:bb:cc:00:00:01", "eth0")] (fun _ => false))
        "/etc/systemd/network/eth0.network").map countDHCPLines = some 2) := by
  rfl

/-- C8 amended: dual-stack DHCP leaves the first-added `DHCP=` line in place
and appends `DHCP=yes` (which sorts last), yielding two `DHCP=` lines;
combining stateful DHCPv6 with SLAAC yields the single line `DHCP=ipv6`. -/
theorem c8_amended :
    ((exceptFilesAt (write_networkd_interfaces
        [("network0", c8I1), ("network1", c8I2)]
        [("aa:bb:cc:00:00:01", "eth0")] (fun _ => false))
        "/etc/systemd/network/eth0.network").map dhcpLines
      = some ["DHCP=ipv4", "DHCP=yes"])
    ∧ ((exceptFilesAt (write_networkd_interfaces
        [("network0", c8I4), ("network1", c8I3)]
        [("aa:bb:cc:00:00:01", "eth0")] (fun _ => false))
        "/etc/systemd/network/eth0.network").map dhcpLines
      = some ["DHCP=ipv6"]) := by
  exact ⟨rfl, rfl⟩

/-- C1 counterexample: a vlan whose `vlan_link` resolves to no physical or
bond link makes `get_config_drive_interfaces` raise (`UnboundLocalError`
from the eagerly evaluated `pop` default) instead of dropping the vlan. -/
theorem c1_counterexample :
    get_config_drive_interfaces cNetDV = .error .unboundLocalError := by
  rfl

/-- C1 amended: an unresolvable `vlan_link` raises `UnboundLocalError`, an
unresolvable `bond_links` id raises `KeyError`; only a network whose `link`
id is unresolvable is dropped while the remaining interfaces are returned. -/
theorem c1_amended_dangling_refs_raise :
    get_config_drive_interfaces cNetDV = .error .unboundLocalError
    ∧ get_config_drive_interfaces cNetDB = .error .keyError
    ∧ (match get_config_drive_interfaces cNetDN with
       | .ok m => m.map (·.1)
       | .error _ => []) = ["n1"] := by
  exact ⟨rfl, rfl, rfl⟩

/-- C2 counterexample: in the RedHat dialect a matched interface whose
`ifcfg` file already exists (here: every file exists) is still rendered, so
the second-run write set is not empty for it. -/
theorem c2_counterexample :
    exceptFilesMem (write_redhat_interfaces [("network0", c2Iface)]
      [("aa:bb:cc:00:00:01", "eth0")] "redhat" (fun _ => true))
      "/etc/sysconfig/network-scripts/ifcfg-eth0" = true := by
  rfl

/-! ## C5: bond and vlan raw-MAC resolution -/

theorem bondLinksFold_ok (bid : String) (macs : String → String) :
    ∀ (l : List String) (phys : AList Iface) (acc : List String),
    (∀ i ∈ l, ∃ p, alookup phys i = some p ∧ p.ethernet_mac_address = some (macs i)) →
    ∃ phys', bondLinksFold bid l (phys, acc)
      = .ok (phys', acc ++ l.map (fun i => pyLower (macs i))) := by
  intro l
  induction l with
  | nil =>
    intro phys acc _
    exact ⟨phys, by simp [bondLinksFold]⟩
  | cons i rest ih =>
    intro phys acc hall
    obtain ⟨p, hp, hm⟩ := hall i (List.mem_cons_self _ _)
    have hall' : ∀ j ∈ rest, ∃ q,
        alookup (aset phys i { p with bond_master := some bid }) j = some q ∧
        q.ethernet_mac_address = some (macs j) := by
      intro j hj
      by_cases hij : i = j
      · subst hij
        exact ⟨{ p with bond_master := some bid }, by simp [alookup_aset], by simp [hm]⟩
      · obtain ⟨q, hq, hqm⟩ := hall j (List.mem_cons_of_mem _ hj)
        exact ⟨q, by simp [alookup_aset, hij, hq], hqm⟩
    obtain ⟨phys', hrec⟩ := ih (aset phys i { p with bond_master := some bid })
      (acc ++ [pyLower (macs i)]) hall'
    simp only [hm] at hrec
    refine ⟨phys', ?_⟩
    simp only [bondLinksFold, dindex, hp, Bind.bind, Except.bind, req, hm]
    rw [hrec]
    simp

theorem vlanBondMacs_ok (phys : AList Iface) (macs : String → String) :
    ∀ l : List String,
    (∀ i ∈ l, ∃ p, alookup phys i = some p ∧ p.ethernet_mac_address = some (macs i)) →
    vlanBondMacs phys l = .ok (l.map (fun i => pyLower (macs i))) := by
  intro l
  induction l with
  | nil => intro _; simp [vlanBondMacs]
  | cons i rest ih =>
    intro hall
    obtain ⟨p, hp, hm⟩ := hall i (List.mem_cons_self _ _)
    have hrec := ih (fun j hj => hall j (List.mem_cons_of_mem _ hj))
    simp only [vlanBondMacs, dindex, hp, Bind.bind, Except.bind, req, hm, hrec,
      pure, Except.pure, List.map_cons]

/-- C5: a bond whose `bond_links` all resolve to physical links gets
`raw_macs` equal to the ordered list of the slaves' lowercased MACs, one per
slave in `bond_links` order; a vlan whose parent is that bond inherits the
same list; and on the concrete two-slave bond+vlan payload the resolver
produces exactly those lists end to end. -/
theorem c5_bond_vlan_raw_macs
    (phys bonds : AList Iface) (b v : Iface) (l : List String)
    (macs : String → String) (em : String) (lastP : Option Iface) (vl : String)
    (hb : b.bond_links = some l)
    (hbe : b.ethernet_mac_address = some em)
    (hall : ∀ i ∈ l, ∃ p, alookup phys i = some p ∧
        p.ethernet_mac_address = some (macs i))
    (hvl : v.vlan_link = some vl)
    (hnp : alookup phys vl = none)
    (hvb : alookup bonds vl = some b) :
    (∃ phys' bres, resolveBondStep phys b = .ok (phys', bres)
       ∧ bres.raw_macs = some (l.map (fun i => pyLower (macs i))))
    ∧ (∃ vres lastP', resolveVlanStep phys bonds lastP v = .ok (vres, lastP')
       ∧ vres.raw_macs = some (l.map (fun i => pyLower (macs i))))
    ∧ (match get_config_drive_interfaces cNet5 with
       | .ok m => ((alookup m "netBond").bind (fun i => i.raw_macs),
                   (alookup m "netVlan").bind (fun i => i.raw_macs))
       | .error _ => (none, none))
      = (some ["aa:bb:cc:00:00:01", "aa:bb:cc:00:00:02"],
         some ["aa:bb:cc:00:00:01", "aa:bb:cc:00:00:02"]) := by
  refine ⟨?_, ?_, by rfl⟩
  · obtain ⟨phys', hfold⟩ := bondLinksFold_ok b.id macs l phys [] hall
    simp only [List.nil_append] at hfold
    have hstep : resolveBondStep phys b = .ok (phys',
        { b with raw_macs := some (l.map (fun i => pyLower (macs i))),
                 mac_address := some (pyLower em),
                 ethernet_mac_address := none }) := by
      simp only [resolveBondStep, req, hb, hbe, Bind.bind, Except.bind]
      rw [hfold]
      simp [pure, Except.pure]
    exact ⟨phys', _, hstep, rfl⟩
  · have hmacs := vlanBondMacs_ok phys macs l hall
    have hstep : resolveVlanStep phys bonds lastP v = .ok
        ({ v with raw_macs := some (l.map (fun i => pyLower (macs i))),
                  mac_address := some (pyLower (v.vlan_mac_address.getD em)),
                  vlan_mac_address := none }, some b) := by
      simp only [resolveVlanStep, req, hvl, hnp, hvb, hb, hbe, Bind.bind, Except.bind,
        hmacs, pure, Except.pure]
    exact ⟨_, some b, hstep, rfl⟩

/-- Witness for C5 on the concrete two-slave bond and its vlan. -/
theorem c5_bond_vlan_raw_macs_witness :
    (∃ phys' bres, resolveBondStep c5Phys cBondL = .ok (phys', bres)
       ∧ bres.raw_macs = some (["eth0i", "eth1i"].map (fun i => pyLower (c5Macs i))))
    ∧ (∃ vres lastP', resolveVlanStep c5Phys c5Bonds none cVlanL = .ok (vres, lastP')
       ∧ vres.raw_macs = some (["eth0i", "eth1i"].map (fun i => pyLower (c5Macs i))))
    ∧ (match get_config_drive_interfaces cNet5 with
       | .ok m => ((alookup m "netBond").bind (fun i => i.raw_macs),
                   (alookup m "netVlan").bind (fun i => i.raw_macs))
       | .error _ => (none, none))
      = (some ["aa:bb:cc:00:00:01", "aa:bb:cc:00:00:02"],
         some ["aa:bb:cc:00:00:01", "aa:bb:cc:00:00:02"]) :=
  c5_bond_vlan_raw_macs c5Phys c5Bonds cBondL cVlanL ["eth0i", "eth1i"]
    c5Macs "AA:BB:CC:00:00:01" none "bond0" rfl rfl
    (by
      intro i hi
      rcases List.mem_cons.1 hi with h | h
      · subst h; exact ⟨cPhys1, rfl, rfl⟩
      · rcases List.mem_cons.1 h with h | h
        · subst h; exact ⟨cPhys2, rfl, rfl⟩
        · cases h)
    rfl rfl rfl

/-! ## C6: carrier timeout -/

theorem foldl_inv {α β : Type} (f : β → α → β) (P : β → Prop)
    (hf : ∀ b a, P b → P (f b a)) : ∀ (l : List α) (b : β), P b → P (l.foldl f b) := by
  intro l
  induction l with
  | nil => intro b hb; simpa using hb
  | cons hd tl ih =>
    intro b hb
    simpa using ih (f b hd) (hf b hd hb)

theorem pollOnce_away {env : SysEnv} {x : Nat} {d : String}
    (hx : env.live d x = false) (if_dict : AList String) :
    ∀ st, ProbeAway d st → ProbeAway d (pollOnce env x if_dict st) := by
  intro st hst
  refine foldl_inv _ (ProbeAway d) ?_ if_dict st hst
  rintro ⟨sys, ups⟩ kv ⟨h1, h2⟩
  by_cases hmem : kv.1 ∈ ups
  · simpa [ProbeAway, hmem] using And.intro h1 h2
  · by_cases hl : env.live kv.1 x = true
    · have hkd : kv.1 ≠ d := by
        intro h
        rw [h, hx] at hl
        cases hl
      refine ⟨?_, ?_⟩
      · intro kv' hkv'
        simp only [ProbeAway, hmem, hl, if_false, if_true] at hkv'
        rcases mem_of_mem_aset hkv' with h | h
        · exact h1 kv' h
        · rw [h]; exact hkd
      · simp only [ProbeAway, hmem, hl, if_false, if_true, List.mem_append, List.mem_cons]
        rintro (h | h | h)
        · exact h2 h
        · exact hkd h.symm
        · cases h
    · have hl' : env.live kv.1 x = false := by
        cases h : env.live kv.1 x
        · rfl
        · exact absurd h hl
      simpa [ProbeAway, hmem, hl'] using And.intro h1 h2

theorem pollLoop_away {env : SysEnv} {d : String} (if_dict : AList String)
    (hlive : ∀ x, x < 90 → env.live d x = false) :
    ∀ (n : Nat) (st : AList String × List String), n ≤ 90 →
      ProbeAway d st → ProbeAway d (pollLoop env if_dict n st) := by
  intro n
  induction n with
  | zero => intro st _ hst; simpa [pollLoop] using hst
  | succ m ih =>
    intro st hn hst
    have hx : env.live d (90 - (m + 1)) = false := by
      refine hlive _ ?_
      omega
    have hst' := pollOnce_away hx if_dict st hst
    simp only [pollLoop]
    split
    · exact hst'
    · exact ih _ (by omega) hst'

theorem probeStep_keeps (env : SysEnv) (noop : Bool) (d : String) :
    ∀ (acc : AList String) (iface : String),
    alookup acc d = some (env.macOf d) →
    alookup (probeStep env noop acc iface) d = some (env.macOf d) := by
  intro acc iface hacc
  unfold probeStep
  split
  · exact hacc
  · split
    · exact hacc
    · split
      · exact hacc
      · split
        · rw [alookup_aset]
          split
          · next h => rw [← h]
          · exact hacc
        · split
          · exact hacc
          · rw [alookup_aset]
            split
            · next h => rw [← h]
            · exact hacc

theorem buildIfDict_lookup (env : SysEnv) (d : String)
    (hv : env.isVlanCfg d = false) (hbr : env.isBridgeCfg d = false)
    (ha : env.addrAssignType d = PERMANENT_ADDR_TYPE) :
    ∀ (ifs : List String) (acc : AList String),
    (d ∈ ifs ∨ alookup acc d = some (env.macOf d)) →
    alookup (ifs.foldl (probeStep env false) acc) d = some (env.macOf d) := by
  intro ifs
  induction ifs with
  | nil =>
    intro acc h
    rcases h with h | h
    · cases h
    · simpa using h
  | cons hd tl ih =>
    intro acc h
    simp only [List.foldl_cons]
    rcases h with h | h
    · rcases List.mem_cons.1 h with h | h
      · subst h
        refine ih _ (Or.inr ?_)
        simp [probeStep, hv, hbr, ha, alookup_aset]
      · exact ih _ (Or.inl h)
    · exact ih _ (Or.inr (probeStep_keeps env false d acc hd h))

/-- C6: a probed candidate device with a permanent address type and no
pre-existing vlan/bridge config, whose carrier never reads up during the 90
bounded polls, is absent from the resulting MAC→name map and is reported in
the timeout warnings; the probe returns normally. -/
theorem c6_carrier_timeout (env : SysEnv) (arg : Option String) (d : String)
    (hmem : d ∈ probeCandidates arg env)
    (hv : env.isVlanCfg d = false) (hbr : env.isBridgeCfg d = false)
    (ha : env.addrAssignType d = PERMANENT_ADDR_TYPE)
    (hlive : ∀ x, x < 90 → env.live d x = false) :
    (∀ kv ∈ (get_sys_interfaces arg false env).1, kv.2 ≠ d)
    ∧ d ∈ (get_sys_interfaces arg false env).2 := by
  have hifd : alookup (buildIfDict env false (probeCandidates arg env)) d
      = some (env.macOf d) :=
    buildIfDict_lookup env d hv hbr ha (probeCandidates arg env) [] (Or.inl hmem)
  simp only [get_sys_interfaces]
  set if_dict := buildIfDict env false (probeCandidates arg env) with hdict
  have hpoll : ProbeAway d (pollLoop env if_dict 90 ([], [])) :=
    pollLoop_away if_dict hlive 90 ([], []) (by omega) (by simp [ProbeAway])
  rcases hst : pollLoop env if_dict 90 ([], []) with ⟨sys, ups⟩
  rw [hst] at hpoll
  simp only [ProbeAway] at hpoll
  obtain ⟨h1, h2⟩ := hpoll
  have hdmem : d ∈ if_dict.map (·.1) :=
    alookup_isSome_mem_keys (by rw [hifd]; rfl)
  have hne : sortBy strLe ups ≠ sortBy strLe (if_dict.map (·.1)) := by
    intro heq
    have : d ∈ sortBy strLe (if_dict.map (·.1)) := (mem_sortBy _ _ _).2 hdmem
    rw [← heq] at this
    exact h2 ((mem_sortBy _ _ _).1 this)
  rw [if_pos hne]
  constructor
  · exact h1
  · refine List.mem_map.2 ⟨(d, env.macOf d), ?_, rfl⟩
    refine List.mem_filter.2 ⟨alookup_mem hifd, ?_⟩
    simpa using h2

/-- Witness for C6: on the concrete host, the timing-out device `eth1` is
absent from the MAC→name map and reported in the warnings. -/
theorem c6_carrier_timeout_witness :
    (∀ kv ∈ (get_sys_interfaces none false c6Env).1, kv.2 ≠ "eth1")
    ∧ "eth1" ∈ (get_sys_interfaces none false c6Env).2 :=
  c6_carrier_timeout c6Env none "eth1" (by decide) rfl rfl rfl
    (fun _ _ => rfl)

/-! ## C2: existing-file skip semantics -/

theorem debPath_inj {a b : String} (h : debPath a = debPath b) : a = b := by
  have hd : (debPath a).data = (debPath b).data := by rw [h]
  simp only [debPath, String.data_append, List.append_assoc] at hd
  exact String.ext (List.append_cancel_right (List.append_cancel_left hd))

theorem debPath_ne_eni (a : String) : "/etc/network/interfaces" ≠ debPath a := by
  intro h
  have hl : ("/etc/network/interfaces").length = (debPath a).length := by rw [h]
  simp only [debPath, String.length_append] at hl
  have h23 : ("/etc/network/interfaces").length = 23 := rfl
  have h26 : ("/etc/network/interfaces.d/").length = 26 := rfl
  have h4 : (".cfg").length = 4 := rfl
  omega

theorem debianEntry_ex {sys : AList String} {ex : String → Bool} {iname : String}
    {interface : Iface} {n r : String}
    (h : debianEntry sys ex iname interface = .ok (some (n, r))) : ex n = false := by
  unfold debianEntry at h
  cases hm : debianMatchName sys iname interface with
  | error e => rw [hm] at h; simp [Bind.bind, Except.bind] at h
  | ok o =>
    rw [hm] at h
    simp only [Bind.bind, Except.bind] at h
    match o with
    | none => simp [pure, Except.pure] at h
    | some (vrd, nm) =>
      by_cases hex : ex nm = true
      · simp [hex, pure, Except.pure] at h
      · have hex' : ex nm = false := by
          cases hx : ex nm
          · rfl
          · exact absurd hx hex
        simp only [hex', Bool.false_eq_true, if_false] at h
        cases hb : debianBody sys interface vrd nm with
        | error e => rw [hb] at h; simp [Bind.bind, Except.bind] at h
        | ok ob =>
          rw [hb] at h
          simp only [Bind.bind, Except.bind] at h
          match ob with
          | none => simp [pure, Except.pure] at h
          | some result =>
            simp only [pure, Except.pure, Except.ok.injEq, Option.some.injEq,
              Prod.mk.injEq] at h
            rw [← h.1]
            exact hex'

theorem debianStep_preserve {sys : AList String} {ex : String → Bool}
    {files files' : Files} {e : String × Iface} {name : String}
    (hex : ex name = true)
    (hs : debianStep sys ex files e = .ok files')
    (hnm : amem files (debPath name) = false) :
    amem files' (debPath name) = false := by
  unfold debianStep at hs
  cases he : debianEntry sys ex e.1 e.2 with
  | error er => rw [he] at hs; simp [Bind.bind, Except.bind] at hs
  | ok o =>
    rw [he] at hs
    simp only [Bind.bind, Except.bind] at hs
    match o with
    | none =>
      simp only [pure, Except.pure, Except.ok.injEq] at hs
      rw [← hs]
      exact hnm
    | some (nm, result) =>
      have hnmx : ex nm = false := debianEntry_ex he
      have hne : ¬(debPath nm = debPath name) := by
        intro hpp
        rw [debPath_inj hpp, hex] at hnmx
        cases hnmx
      cases hl : alookup files (debPath nm) with
      | some old =>
        simp only [hl, pure, Except.pure, Except.ok.injEq] at hs
        rw [← hs, amem_aset]
        simp [hne, hnm]
      | none =>
        simp only [hl, pure, Except.pure, Except.ok.injEq] at hs
        rw [← hs, amem_aset]
        simp [hne, hnm]

theorem debianFallbackStep_preserve {interfaces : AList Iface} {lastI : Option Iface}
    {ex : String → Bool} {files files' : Files} {e : String × String} {name : String}
    (hex : ex name = true)
    (hs : debianFallbackStep interfaces lastI ex files e = .ok files')
    (hnm : amem files (debPath name) = false) :
    amem files' (debPath name) = false := by
  obtain ⟨mac, iname⟩ := e
  unfold debianFallbackStep at hs
  by_cases hi : ex iname = true
  · simp only [hi, if_true, pure, Except.pure, Except.ok.injEq] at hs
    rw [← hs]
    exact hnm
  · have hi' : ex iname = false := by
      cases hx : ex iname
      · rfl
      · exact absurd hx hi
    have hne : ¬(debPath iname = debPath name) := by
      intro hpp
      rw [debPath_inj hpp, hex] at hi'
      cases hi'
    simp only [hi', Bool.false_eq_true, if_false, Bind.bind, Except.bind] at hs
    cases him : interMacs interfaces with
    | error er => rw [him] at hs; simp at hs
    | ok ims =>
      rw [him] at hs
      simp only at hs
      by_cases hskip : (mac ∈ ims || (some mac) ∈ linkMacs interfaces lastI) = true
      · simp only [hskip, if_true, pure, Except.pure, Except.ok.injEq] at hs
        rw [← hs]
        exact hnm
      · simp only [hskip, Bool.false_eq_true, if_false, pure, Except.pure,
          Except.ok.injEq] at hs
        rw [← hs, amem_aset]
        simp [hne, hnm]

/-- C2 amended: only the Debian renderer honors pre-existing config files
for matched interfaces — a name with an existing file never gains an entry
in the Debian output; the RedHat/SUSE, Gentoo and networkd renderers check
existing files only on the DHCP-fallback path, so a declared interface is
rendered even when every dialect file already exists (non-empty second-run
write set). -/
theorem c2_skip_semantics :
    (∀ (interfaces : AList Iface) (sys : AList String) (ex : String → Bool)
       (name : String), ex name = true →
       exceptFilesMem (write_debian_interfaces interfaces sys ex) (debPath name) = false)
    ∧ exceptFilesMem (write_redhat_interfaces [("network0", c2Iface)]
        [("aa:bb:cc:00:00:01", "eth0")] "redhat" (fun _ => true))
        "/etc/sysconfig/network-scripts/ifcfg-eth0" = true
    ∧ exceptFilesMem (write_gentoo_interfaces [("network0", c2Iface)]
        [("aa:bb:cc:00:00:01", "eth0")] (fun _ => true)) "/etc/conf.d/net.eth0" = true
    ∧ exceptFilesMem (write_networkd_interfaces [("network0", c8I1)]
        [("aa:bb:cc:00:00:01", "eth0")] (fun _ => true))
        "/etc/systemd/network/eth0.network" = true := by
  refine ⟨?_, rfl, rfl, rfl⟩
  intro interfaces sys ex name hex
  unfold exceptFilesMem
  cases hr : write_debian_interfaces interfaces sys ex with
  | error e => rfl
  | ok fs =>
    unfold write_debian_interfaces at hr
    simp only [Bind.bind, Except.bind] at hr
    cases h1 : (sortedByIdVal interfaces).foldlM (debianStep sys ex)
        [("/etc/network/interfaces",
          "auto lo\niface lo inet loopback\nsource /etc/network/interfaces.d/*.cfg\n")] with
    | error e => rw [h1] at hr; simp at hr
    | ok files1 =>
      rw [h1] at hr
      simp only at hr
      have hi0 : amem [("/etc/network/interfaces",
          "auto lo\niface lo inet loopback\nsource /etc/network/interfaces.d/*.cfg\n")]
          (debPath name) = false := by
        simp [amem, alookup, debPath_ne_eni name]
      have hinv1 : amem files1 (debPath name) = false :=
        foldlM_except_inv (debianStep sys ex)
          (fun b => amem b (debPath name) = false)
          (fun b a b' hb hba => debianStep_preserve hex hba hb)
          (sortedByIdVal interfaces) _ files1 hi0 h1
      unfold debianFallback at hr
      exact foldlM_except_inv
        (debianFallbackStep interfaces ((sortedByIdVal interfaces).getLast?.map (·.2)) ex)
        (fun b => amem b (debPath name) = false)
        (fun b a b' hb hba => debianFallbackStep_preserve hex hba hb)
        (sortedByName sys) files1 fs hinv1 hr

/-- Witness for C2's universal Debian conjunct: with every file
pre-existing, the bond's config path is absent from the Debian output. -/
theorem c2_skip_semantics_witness :
    exceptFilesMem (write_debian_interfaces c4Ifaces c4Sys (fun _ => true))
      (debPath "bond0") = false :=
  c2_skip_semantics.1 c4Ifaces c4Sys (fun _ => true) "bond0" rfl

theorem append_left_ne (p q name : String) (hlen : p.length = q.length)
    (hpq : p ≠ q) : ¬(p ++ name = q ++ name) := by
  intro h
  apply hpq
  have hdata := congrArg String.data h
  simp only [String.data_append] at hdata
  exact String.ext (List.append_inj hdata hlen).1

/-! ## C4: DHCP-fallback membership -/

theorem debianFallbackStep_shape {interfaces : AList Iface} {lastI : Option Iface}
    {ex : String → Bool} {files files' : Files} {e : String × String}
    (hs : debianFallbackStep interfaces lastI ex files e = .ok files') :
    files' = files ∨ files' = aset files (debPath e.2) (debianDhcpStanza e.2) := by
  obtain ⟨mac, iname⟩ := e
  unfold debianFallbackStep at hs
  by_cases hi : ex iname = true
  · simp only [hi, if_true, pure, Except.pure, Except.ok.injEq] at hs
    exact Or.inl hs.symm
  · have hi' : ex iname = false := by
      cases hx : ex iname
      · rfl
      · exact absurd hx hi
    simp only [hi', Bool.false_eq_true, if_false, Bind.bind, Except.bind] at hs
    cases him : interMacs interfaces with
    | error er => rw [him] at hs; simp at hs
    | ok ims =>
      rw [him] at hs
      simp only at hs
      by_cases hskip : (mac ∈ ims || (some mac) ∈ linkMacs interfaces lastI) = true
      · simp only [hskip, if_true, pure, Except.pure, Except.ok.injEq] at hs
        exact Or.inl hs.symm
      · simp only [hskip, Bool.false_eq_true, if_false, pure, Except.pure,
          Except.ok.injEq] at hs
        exact Or.inr hs.symm

theorem debianFallbackStep_writes {interfaces : AList Iface} {lastI : Option Iface}
    {ex : String → Bool} {files : Files} {mac iname : String} {ims : List String}
    (hex : ex iname = false) (him : interMacs interfaces = .ok ims)
    (hmac : mac ∉ ims) (hlm : (some mac) ∉ linkMacs interfaces lastI) :
    debianFallbackStep interfaces lastI ex files (mac, iname)
      = .ok (aset files (debPath iname) (debianDhcpStanza iname)) := by
  unfold debianFallbackStep
  simp [hex, him, Bind.bind, Except.bind, hmac, hlm, pure, Except.pure,
    debianDhcpStanza]

theorem debianFallbackStep_covered {interfaces : AList Iface} {lastI : Option Iface}
    {ex : String → Bool} {files : Files} {mac iname : String} {ims : List String}
    (hex : ex iname = false) (him : interMacs interfaces = .ok ims)
    (hmac : mac ∈ ims) :
    debianFallbackStep interfaces lastI ex files (mac, iname) = .ok files := by
  unfold debianFallbackStep
  simp [hex, him, Bind.bind, Except.bind, hmac, pure, Except.pure]

theorem debianFallback_lookup_frozen {interfaces : AList Iface} {lastI : Option Iface}
    {ex : String → Bool} (iname : String) :
    ∀ (l : List (String × String)) (files files' : Files),
    (∀ e ∈ l, e.2 ≠ iname) →
    debianFallback interfaces lastI ex files l = .ok files' →
    alookup files' (debPath iname) = alookup files (debPath iname) := by
  intro l
  induction l with
  | nil =>
    intro files files' _ hr
    simp only [debianFallback, List.foldlM_nil, pure, Except.pure,
      Except.ok.injEq] at hr
    rw [← hr]
  | cons e rest ih =>
    intro files files' hne hr
    simp only [debianFallback, List.foldlM_cons, Bind.bind, Except.bind] at hr
    cases hstep : debianFallbackStep interfaces lastI ex files e with
    | error er => rw [hstep] at hr; simp at hr
    | ok f1 =>
      rw [hstep] at hr
      simp only at hr
      have hrest : alookup files' (debPath iname) = alookup f1 (debPath iname) :=
        ih f1 files' (fun x hx => hne x (List.mem_cons_of_mem _ hx)) hr
      rcases debianFallbackStep_shape hstep with h | h
      · rw [hrest, h]
      · rw [hrest, h, alookup_aset]
        have : ¬(debPath e.2 = debPath iname) := by
          intro hp
          exact hne e (List.mem_cons_self _ _) (debPath_inj hp)
        simp [this]

/-- C4 amended: the fallback check is not raw-MAC membership.  In the Debian
dialect (and likewise RedHat) a discovered device gains exactly one DHCP
fallback stanza iff its MAC is absent from the declared interfaces'
`mac_address` values (and stale `link_mac` comprehension), with existing
files suppressing it; so a device covered only through a bond's multi-entry
`raw_macs` still gains a fallback stanza, in every dialect. -/
theorem c4_fallback_semantics :
    (∀ (interfaces : AList Iface) (lastI : Option Iface) (ex : String → Bool)
       (files files' : Files) (sysList : List (String × String))
       (mac iname : String) (ims : List String),
       (mac, iname) ∈ sysList →
       sysList.Pairwise (fun a b => a.2 ≠ b.2) →
       ex iname = false →
       interMacs interfaces = .ok ims →
       mac ∉ ims →
       (some mac) ∉ linkMacs interfaces lastI →
       debianFallback interfaces lastI ex files sysList = .ok files' →
       alookup files' (debPath iname) = some (debianDhcpStanza iname))
    ∧ (∀ (interfaces : AList Iface) (lastI : Option Iface) (ex : String → Bool)
       (files files' : Files) (sysList : List (String × String))
       (mac iname : String) (ims : List String),
       (mac, iname) ∈ sysList →
       sysList.Pairwise (fun a b => a.2 ≠ b.2) →
       ex iname = false →
       interMacs interfaces = .ok ims →
       mac ∈ ims →
       debianFallback interfaces lastI ex files sysList = .ok files' →
       alookup files' (debPath iname) = alookup files (debPath iname))
    ∧ exceptFilesMem (write_redhat_interfaces c4Ifaces c4Sys "redhat"
        (fun _ => false)) "/etc/sysconfig/network-scripts/ifcfg-eth1" = true
    ∧ exceptFilesMem (write_gentoo_interfaces c4Ifaces c4Sys
        (fun _ => false)) "/etc/conf.d/net.eth1" = true
    ∧ exceptFilesMem (write_networkd_interfaces c4Ifaces c4Sys
        (fun _ => false)) "/etc/systemd/network/eth1.network" = true := by
  refine ⟨?_, ?_, rfl, rfl, rfl⟩
  · intro interfaces lastI ex files files' sysList mac iname ims
      hmem hpw hex him hmac hlm hr
    induction sysList generalizing files with
    | nil => cases hmem
    | cons e rest ih =>
      simp only [debianFallback, List.foldlM_cons, Bind.bind, Except.bind] at hr
      rcases List.mem_cons.1 hmem with he | he
      · subst he
        rw [debianFallbackStep_writes hex him hmac hlm] at hr
        simp only at hr
        have hfr : ∀ x ∈ rest, x.2 ≠ iname := by
          intro x hx
          exact fun hxx => (List.pairwise_cons.1 hpw).1 x hx hxx.symm
        rw [debianFallback_lookup_frozen iname rest _ files' hfr hr, alookup_aset]
        simp
      · cases hstep : debianFallbackStep interfaces lastI ex files e with
        | error er => rw [hstep] at hr; simp at hr
        | ok f1 =>
          rw [hstep] at hr
          simp only at hr
          exact ih f1 he (List.Pairwise.of_cons hpw) hr
  · intro interfaces lastI ex files files' sysList mac iname ims
      hmem hpw hex him hmac hr
    induction sysList generalizing files with
    | nil => cases hmem
    | cons e rest ih =>
      simp only [debianFallback, List.foldlM_cons, Bind.bind, Except.bind] at hr
      rcases List.mem_cons.1 hmem with he | he
      · subst he
        rw [debianFallbackStep_covered hex him hmac] at hr
        simp only at hr
        have hfr : ∀ x ∈ rest, x.2 ≠ iname := by
          intro x hx
          exact fun hxx => (List.pairwise_cons.1 hpw).1 x hx hxx.symm
        exact debianFallback_lookup_frozen iname rest _ files' hfr hr
      · cases hstep : debianFallbackStep interfaces lastI ex files e with
        | error er => rw [hstep] at hr; simp at hr
        | ok f1 =>
          rw [hstep] at hr
          simp only at hr
          have hstep1 := ih f1 he (List.Pairwise.of_cons hpw) hr
          rw [hstep1]
          rcases debianFallbackStep_shape hstep with h | h
          · rw [h]
          · rw [h, alookup_aset]
            have hne : ¬(debPath e.2 = debPath iname) := by
              intro hp
              have he2 : e.2 = iname := debPath_inj hp
              have := (List.pairwise_cons.1 hpw).1 (mac, iname) he
              exact this (by rw [he2])
            simp [hne]

/-- Witness for C4's Debian conjuncts: the bond slave `eth1` gains its
fallback stanza while the covered `eth0` leaves the file set untouched. -/
theorem c4_fallback_semantics_witness :
    alookup [(debPath "eth1", debianDhcpStanza "eth1")] (debPath "eth1")
      = some (debianDhcpStanza "eth1") :=
  c4_fallback_semantics.1 c4Ifaces (some c4Bond) (fun _ => false) []
    [(debPath "eth1", debianDhcpStanza "eth1")]
    [("aa:bb:cc:00:00:01", "eth0"), ("aa:bb:cc:00:00:02", "eth1")]
    "aa:bb:cc:00:00:02" "eth1" ["aa:bb:cc:00:00:01"]
    (by decide) (by decide) rfl rfl (by decide) (by decide) rfl

/-- C4 counterexample: the device `eth1`, whose MAC is the second entry of
the declared bond's `raw_macs`, still receives a DHCP fallback stanza in
the Debian output. -/
theorem c4_counterexample :
    exceptFilesAt (write_debian_interfaces c4Ifaces c4Sys (fun _ => false))
      (debPath "eth1") = some (debianDhcpStanza "eth1")
    ∧ "aa:bb:cc:00:00:02" ∈ c4Bond.raw_macs.getD [] := by
  exact ⟨rfl, by decide⟩

/-! ## C7: default-route rendering -/

theorem rhRouteFold_normal {distro : String} (hns : _is_suse distro = false) :
    ∀ (rs : List Route) (res : String) (acc : List RhRoute),
    (∀ r ∈ rs, routeComplete r) →
    rhRouteFold distro rs (res, acc) = .ok
      (res ++ strJoin (rs.map (fun r => if rhIsDefault r then rhDefLine r else "")),
       acc ++ (rs.filter (fun r => !rhIsDefault r)).map rhGenericRow) := by
  intro rs
  induction rs with
  | nil =>
    intro res acc _
    simp [rhRouteFold, strJoin, String.append_empty]
  | cons r rest ih =>
    intro res acc hall
    obtain ⟨hn, hm, hg⟩ := hall r (List.mem_cons_self _ _)
    obtain ⟨net, hnet⟩ := Option.isSome_iff_exists.1 hn
    obtain ⟨mask, hmask⟩ := Option.isSome_iff_exists.1 hm
    obtain ⟨gw, hgw⟩ := Option.isSome_iff_exists.1 hg
    have hrest := fun x hx => hall x (List.mem_cons_of_mem _ hx)
    by_cases hdef : net = "0.0.0.0" ∧ mask = "0.0.0.0"
    · have hisd : rhIsDefault r = true := by
        simp [rhIsDefault, hnet, hmask, hdef.1, hdef.2]
      have hcond : (net = "0.0.0.0" && mask = "0.0.0.0") = true := by
        simp [hdef.1, hdef.2]
      simp only [rhRouteFold, req, hnet, hmask, hgw, Bind.bind, Except.bind,
        hcond, if_true, hns, Bool.not_false]
      rw [ih _ _ hrest]
      simp only [List.map_cons, List.filter_cons, hisd, Bool.not_true,
        Bool.false_eq_true, if_false, if_true, strJoin, rhDefLine, hgw,
        Option.getD_some, Except.ok.injEq, Prod.mk.injEq]
      constructor
      · simp [String.append_assoc]
      · trivial
    · have hisd : rhIsDefault r = false := by
        simp only [rhIsDefault, hnet, hmask]
        rcases not_and_or.1 hdef with h | h <;> simp [h]
      have hcond : (net = "0.0.0.0" && mask = "0.0.0.0") = false := by
        rcases not_and_or.1 hdef with h | h <;> simp [h]
      simp only [rhRouteFold, req, hnet, hmask, hgw, Bind.bind, Except.bind, hcond,
        Bool.false_eq_true, if_false]
      rw [ih _ _ hrest]
      simp only [List.map_cons, List.filter_cons, hisd, Bool.not_false, if_true,
        strJoin, Bool.false_eq_true, if_false, Except.ok.injEq, Prod.mk.injEq]
      constructor
      · rfl
      · rw [List.append_assoc]
        simp [rhGenericRow, hnet, hmask, hgw]

/-- C7 amended: the Debian static renderer treats a route whose
network/netmask are both `0.0.0.0` or both `::` as the `gateway` line and
every other route as generic `up`/`down` commands; RedHat classifies only
the v4 all-zeros pair as `DEFROUTE`/`GATEWAY` ifcfg lines — every other
route (a `::/::` one included) lands as a generic numbered row in the
`route-<name>` file; Gentoo likewise emits `default via` only for the v4
all-zeros pair and a generic `net netmask mask via gw` line otherwise. -/
theorem c7_route_rendering :
    (∀ (n t net mask gw : String),
       ((net = "0.0.0.0" ∧ mask = "0.0.0.0") ∨ (net = "::" ∧ mask = "::")) →
       debianRouteLine n t ⟨some net, some mask, some gw⟩
         = .ok ("    gateway " ++ gw ++ "\n"))
    ∧ (∀ (n net mask gw : String),
       ¬((net = "0.0.0.0" ∧ mask = "0.0.0.0") ∨ (net = "::" ∧ mask = "::")) →
       debianRouteLine n "ipv4" ⟨some net, some mask, some gw⟩
         = .ok ("    up route add -net " ++ net ++ " netmask " ++ mask ++ " gw "
             ++ gw ++ " || true\n"
             ++ "    down route del -net " ++ net ++ " netmask " ++ mask ++ " gw "
             ++ gw ++ " || true\n"))
    ∧ (∀ (name : String) (i : Iface) (distro : String) (rs : List Route)
         (hw ip mask : String),
       _is_suse distro = false →
       i.mac_address = some hw → i.ip_address = some ip → i.netmask = some mask →
       i.routes = some rs → i.vlan_id = none → i.bond_slaves = none →
       i.bond_master = none →
       (∀ r ∈ rs, routeComplete r) →
       _write_rh_interface name i distro = .ok
         ((if (rs.filter (fun r => !rhIsDefault r)) = [] then ([] : Files) else
            [((_network_files distro).2 ++ "-" ++ name,
              rhRouteContent distro
                ((rs.filter (fun r => !rhIsDefault r)).map rhGenericRow))])
          ++ [((_network_files distro).1 ++ "-" ++ name,
              rhStatic distro name hw ip mask
                ++ strJoin (rs.map (fun r =>
                    if rhIsDefault r then rhDefLine r else "")))]))
    ∧ (∀ (net mask gw : String), net = "0.0.0.0" → mask = "0.0.0.0" →
       gentooRouteStr ⟨some net, some mask, some gw⟩ = .ok ("default via " ++ gw))
    ∧ (∀ (net mask gw : String), ¬(net = "0.0.0.0" ∧ mask = "0.0.0.0") →
       gentooRouteStr ⟨some net, some mask, some gw⟩
         = .ok (net ++ " netmask " ++ mask ++ " via " ++ gw)) := by
  refine ⟨?_, ?_, ?_, ?_, ?_⟩
  · intro n t net mask gw h
    rcases h with ⟨h1, h2⟩ | ⟨h1, h2⟩ <;>
      simp [debianRouteLine, req, h1, h2, Bind.bind, Except.bind, pure, Except.pure]
  · intro n net mask gw h
    have hcond : ((net = "0.0.0.0" && mask = "0.0.0.0")
        || (net = "::" && mask = "::")) = false := by
      rcases not_or.1 h with ⟨h1, h2⟩
      rcases not_and_or.1 h1 with h1 | h1 <;>
        rcases not_and_or.1 h2 with h2 | h2 <;>
          simp [h1, h2]
    simp [debianRouteLine, req, Bind.bind, Except.bind, hcond, pure, Except.pure]
  · intro name i distro rs hw ip mask hns hhw hip hmask hrs hvl hbs hbm hall
    simp only [_write_rh_interface, req, hhw, hip, hmask, hrs, Bind.bind,
      Except.bind, _set_rh_vlan, hvl]
    rw [show _set_rh_bonding i distro
          (rhStatic distro name hw ip mask ++ "")
        = .ok (rhStatic distro name hw ip mask ++ "") by
      unfold _set_rh_bonding
      simp [hbs, hbm, pure, Except.pure]]
    simp only [String.append_empty, Bind.bind, Except.bind]
    rw [rhRouteFold_normal hns rs _ [] hall]
    simp only [List.nil_append, pure, Except.pure]
    by_cases hempty : (rs.filter (fun r => !rhIsDefault r)) = []
    · rw [if_pos hempty]
      rw [if_neg (by simp [hempty])]
      simp [aset]
    · rw [if_neg hempty]
      rw [if_pos (by simpa using hempty)]
      have hne : ¬((_network_files distro).2 ++ "-" ++ name
          = (_network_files distro).1 ++ "-" ++ name) := by
        simp only [_network_files, hns, Bool.false_eq_true, if_false]
        exact append_left_ne _ _ name (by decide) (by decide)
      simp [aset, hne]
  · intro net mask gw h1 h2
    simp [gentooRouteStr, req, h1, h2, Bind.bind, Except.bind, pure, Except.pure]
  · intro net mask gw h
    have hcond : (net = "0.0.0.0" && mask = "0.0.0.0") = false := by
      rcases not_and_or.1 h with h1 | h1 <;> simp [h1]
    simp [gentooRouteStr, req, Bind.bind, Except.bind, hcond, pure, Except.pure]

/-- Witness for C7 on concrete routes: Debian renders `::/::` as a gateway
line and a plain v4 route as up/down commands; RedHat splits the concrete
static interface with a `::/::` route into a generic route file; Gentoo
classifies both concrete routes. -/
theorem c7_route_rendering_witness :
    debianRouteLine "eth0" "ipv4" ⟨some "::", some "::", some "fe80::1"⟩
      = .ok ("    gateway " ++ "fe80::1" ++ "\n")
    ∧ debianRouteLine "eth0" "ipv4"
        ⟨some "10.0.0.0", some "255.0.0.0", some "192.0.2.1"⟩
      = .ok ("    up route add -net " ++ "10.0.0.0" ++ " netmask " ++ "255.0.0.0"
          ++ " gw " ++ "192.0.2.1" ++ " || true\n"
          ++ "    down route del -net " ++ "10.0.0.0" ++ " netmask " ++ "255.0.0.0"
          ++ " gw " ++ "192.0.2.1" ++ " || true\n")
    ∧ _write_rh_interface "eth0" c7Iface "redhat" = .ok
        ((if (([⟨some "::", some "::", some "fe80::1"⟩] : List Route).filter
              (fun r => !rhIsDefault r)) = [] then ([] : Files) else
           [((_network_files "redhat").2 ++ "-" ++ "eth0",
             rhRouteContent "redhat"
               ((([⟨some "::", some "::", some "fe80::1"⟩] : List Route).filter
                  (fun r => !rhIsDefault r)).map rhGenericRow))])
         ++ [((_network_files "redhat").1 ++ "-" ++ "eth0",
             rhStatic "redhat" "eth0" "aa:bb:cc:00:00:01" "192.0.2.10"
                 "255.255.255.0"
               ++ strJoin (([⟨some "::", some "::", some "fe80::1"⟩] : List Route).map
                   (fun r => if rhIsDefault r then rhDefLine r else "")))])
    ∧ gentooRouteStr ⟨some "0.0.0.0", some "0.0.0.0", some "192.0.2.1"⟩
      = .ok ("default via " ++ "192.0.2.1")
    ∧ gentooRouteStr ⟨some "::", some "::", some "fe80::1"⟩
      = .ok ("::" ++ " netmask " ++ "::" ++ " via " ++ "fe80::1") :=
  ⟨c7_route_rendering.1 "eth0" "ipv4" "::" "::" "fe80::1" (Or.inr ⟨rfl, rfl⟩),
   c7_route_rendering.2.1 "eth0" "10.0.0.0" "255.0.0.0" "192.0.2.1" (by decide),
   c7_route_rendering.2.2.1 "eth0" c7Iface "redhat"
     [⟨some "::", some "::", some "fe80::1"⟩]
     "aa:bb:cc:00:00:01" "192.0.2.10" "255.255.255.0"
     rfl rfl rfl rfl rfl rfl rfl rfl
     (by
       intro r hr
       rw [List.mem_singleton] at hr
       subst hr
       exact ⟨rfl, rfl, rfl⟩),
   c7_route_rendering.2.2.2.1 "0.0.0.0" "0.0.0.0" "192.0.2.1" rfl rfl,
   c7_route_rendering.2.2.2.2 "::" "::" "fe80::1" (by decide)⟩

/-- C7 counterexample: in the RedHat dialect a route whose network and
netmask are both the v6 all-zeros address is rendered as a generic numbered
static route, and the ifcfg body carries no `DEFROUTE` line. -/
theorem c7_counterexample :
    exceptFilesAt (_write_rh_interface "eth0" c7Iface "redhat")
      "/etc/sysconfig/network-scripts/route-eth0"
      = some "ADDRESS0=::\nNETMASK0=::\nGATEWAY0=fe80::1\n"
    ∧ strContains (pyStr (exceptFilesAt (_write_rh_interface "eth0" c7Iface "redhat")
        "/etc/sysconfig/network-scripts/ifcfg-eth0")) "DEFROUTE" = false := by
  exact ⟨rfl, rfl⟩

end Glean
